import Mathlib

/-!
# PWM driver for the RTL87x2G timers (`drivers/pwm/pwm_rtl87x2g.c`)

A shallow embedding of the three driver entry points

* `pwm_rtl87x2g_set_cycles`
* `pwm_rtl87x2g_get_cycles_per_sec`
* `pwm_rtl87x2g_init`

over an explicit model of the timer register block.  Every call of a vendor
HAL routine (`ENHTIM_*`, `TIM_*`) and the one direct register store of the
driver is a state transformer on `device` which also appends the operation to
`device.trace`, so that both the resulting registers and the order of the
hardware operations can be stated.

Machine integers are natural numbers; the only arithmetic of the driver that
can wrap is the 32-bit subtraction `period_cycles - pulse_cycles`, modelled by
`sub32`.
-/

namespace PwmRtl87x2g

/-! ## Constants and enumerations -/

/-- Largest `uint32_t` value. -/
def UINT32_MAX : Nat := 4294967295

/-- Value of `EINVAL` in `errno.h`. -/
def EINVAL : Int := 22

/-- Modelled from the spec: the polarity bit of `pwm_flags_t`, declared in the
PWM devicetree bindings header, which is not among the sources.  The spec only
speaks of a boolean `polarityInverted`; it is taken as bit 0 of the flags. -/
def PWM_POLARITY_INVERTED : Nat := 1

/-- The 32-bit unsigned subtraction `a - b` of C. -/
def sub32 (a b : Nat) : Nat := (a + 4294967296 - b) % 4294967296

/-- The HAL type `FunctionalState`. -/
inductive FunctionalState
  | DISABLE
  | ENABLE
  deriving DecidableEq, Repr

/-- The two values of the one-bit field `Enhtimer_PWM_polarity`. -/
inductive ENHTIM_PWMStartPolarity
  | ENHTIM_PWM_START_WITH_LOW
  | ENHTIM_PWM_START_WITH_HIGH
  deriving DecidableEq, Repr

/-- Modelled from the spec: the divider codes `CLOCK_DIV_x`, an enumeration of
the HAL headers, which are not among the sources.  The spec says that the
recognized prescalers map to distinct codes; the codes are kept symbolic, one
constructor for each name the driver uses. -/
inductive ClockDiv
  | CLOCK_DIV_1
  | CLOCK_DIV_2
  | CLOCK_DIV_4
  | CLOCK_DIV_8
  | CLOCK_DIV_16
  | CLOCK_DIV_32
  | CLOCK_DIV_40
  | CLOCK_DIV_64
  deriving DecidableEq, Repr

/-- Timer clock sources; the driver only ever selects `CK_40M_TIMER`. -/
inductive ClockSrc
  | CK_40M_TIMER
  | other (code : Nat)
  deriving DecidableEq, Repr

/-- Timer modes; the driver selects `ENHTIM_MODE_PWM_MANUAL` on the enhanced
timer and `TIM_Mode_UserDefine` on the standard timer. -/
inductive TimerMode
  | ENHTIM_MODE_PWM_MANUAL
  | TIM_Mode_UserDefine
  | other (code : Nat)
  deriving DecidableEq, Repr

/-! ## Driver data and configuration -/

/-- The C type `struct pwm_rtl87x2g_data`. -/
structure pwm_rtl87x2g_data where
  /-- Timer clock (Hz), `uint32_t`. -/
  tim_clk : Nat
  deriving DecidableEq, Repr

/-- The C type `struct pwm_rtl87x2g_config`.  The pin-control handle `pcfg` is
only passed on to `pinctrl_apply_state`, whose result is an input of
`pwm_rtl87x2g_init` below. -/
structure pwm_rtl87x2g_config where
  reg : Nat
  /-- Channel count, `uint8_t`. -/
  channels : Nat
  is_enhanced : Bool
  /-- Prescaler, `uint16_t`. -/
  prescaler : Nat
  clkid : Nat
  deriving DecidableEq, Repr

/-! ## Register block -/

/-- The union `ENHTIM_CONFIGURE_TypeDef`: the bit-field `Enhtimer_PWM_polarity`
and all remaining bits of the 32-bit word `d32`. -/
structure ENHTIM_CONFIGURE_TypeDef where
  Enhtimer_PWM_polarity : ENHTIM_PWMStartPolarity
  rest : Nat
  deriving DecidableEq, Repr

/-- The timer register block at `config->reg`.  The driver looks at it either
as `ENHTIM_TypeDef` or as `TIM_TypeDef`, depending on `is_enhanced`; the fields
of both views are kept side by side. -/
structure TimerRegs where
  /-- Timer running (`ENHTIM_Cmd` / `TIM_Cmd`). -/
  enable : FunctionalState
  clock_src : ClockSrc
  clock_div_en : FunctionalState
  clock_div : ClockDiv
  mode : TimerMode
  pwm_en : FunctionalState
  /-- Enhanced timer: the configure register. -/
  ENHTIM_CONFIGURE : ENHTIM_CONFIGURE_TypeDef
  /-- Enhanced timer: max-count register. -/
  max_count : Nat
  /-- Enhanced timer: compare-count register. -/
  cc_value : Nat
  /-- Standard timer: PWM high count. -/
  high_count : Nat
  /-- Standard timer: PWM low count. -/
  low_count : Nat
  deriving DecidableEq, Repr

/-- The fields of `ENHTIM_InitTypeDef` that `pwm_rtl87x2g_init` assigns after
`ENHTIM_StructInit`. -/
structure ENHTIM_InitTypeDef where
  ENHTIM_ClockSource : ClockSrc
  ENHTIM_ClockDiv_En : FunctionalState
  ENHTIM_ClockDiv : ClockDiv
  ENHTIM_Mode : TimerMode
  ENHTIM_PWMOutputEn : FunctionalState
  ENHTIM_PWMStartPolarity : ENHTIM_PWMStartPolarity
  ENHTIM_MaxCount : Nat
  ENHTIM_CCValue : Nat
  deriving DecidableEq, Repr

/-- The fields of `TIM_TimeBaseInitTypeDef` that `pwm_rtl87x2g_init` assigns
after `TIM_StructInit`. -/
structure TIM_TimeBaseInitTypeDef where
  TIM_ClockSrc : ClockSrc
  TIM_SOURCE_DIV_En : FunctionalState
  TIM_SOURCE_DIV : ClockDiv
  TIM_Mode : TimerMode
  TIM_PWM_En : FunctionalState
  TIM_PWM_High_Count : Nat
  TIM_PWM_Low_Count : Nat
  deriving DecidableEq, Repr

/-- One hardware operation issued by the driver. -/
inductive HwOp
  | ENHTIM_CONFIGURE_store (d32 : ENHTIM_CONFIGURE_TypeDef)
  | ENHTIM_SetMaxCount (count : Nat)
  | ENHTIM_SetCCValue (value : Nat)
  | ENHTIM_Cmd (NewState : FunctionalState)
  | ENHTIM_Init (init_struct : ENHTIM_InitTypeDef)
  | TIM_PWMChangeFreqAndDuty (high_count low_count : Nat)
  | TIM_Cmd (NewState : FunctionalState)
  | TIM_TimeBaseInit (init_struct : TIM_TimeBaseInitTypeDef)
  deriving DecidableEq, Repr

/-- Effect of one hardware operation on the register block.  The HAL routines
are vendor code outside the driver source; each is taken to store its
arguments in the registers it is named after and to leave every other register
as it is. -/
def HwOp.apply : HwOp → TimerRegs → TimerRegs
  | .ENHTIM_CONFIGURE_store d32, r => { r with ENHTIM_CONFIGURE := d32 }
  | .ENHTIM_SetMaxCount count, r => { r with max_count := count }
  | .ENHTIM_SetCCValue value, r => { r with cc_value := value }
  | .ENHTIM_Cmd NewState, r => { r with enable := NewState }
  | .ENHTIM_Init i, r =>
      { r with
        clock_src := i.ENHTIM_ClockSource
        clock_div_en := i.ENHTIM_ClockDiv_En
        clock_div := i.ENHTIM_ClockDiv
        mode := i.ENHTIM_Mode
        pwm_en := i.ENHTIM_PWMOutputEn
        ENHTIM_CONFIGURE :=
          { r.ENHTIM_CONFIGURE with Enhtimer_PWM_polarity := i.ENHTIM_PWMStartPolarity }
        max_count := i.ENHTIM_MaxCount
        cc_value := i.ENHTIM_CCValue }
  | .TIM_PWMChangeFreqAndDuty high_count low_count, r =>
      { r with high_count := high_count, low_count := low_count }
  | .TIM_Cmd NewState, r => { r with enable := NewState }
  | .TIM_TimeBaseInit i, r =>
      { r with
        clock_src := i.TIM_ClockSrc
        clock_div_en := i.TIM_SOURCE_DIV_En
        clock_div := i.TIM_SOURCE_DIV
        mode := i.TIM_Mode
        pwm_en := i.TIM_PWM_En
        high_count := i.TIM_PWM_High_Count
        low_count := i.TIM_PWM_Low_Count }

/-- A timer instance: the driver data, the register block and the hardware
operations issued so far, oldest first. -/
structure device where
  data : pwm_rtl87x2g_data
  regs : TimerRegs
  trace : List HwOp
  deriving DecidableEq, Repr

/-- Issue one hardware operation: update the registers and record it. -/
def issue (op : HwOp) (dev : device) : device :=
  { dev with regs := op.apply dev.regs, trace := dev.trace ++ [op] }

/-- The store `((ENHTIM_TypeDef *)timer_base)->ENHTIM_CONFIGURE = d32`. -/
def ENHTIM_CONFIGURE_store (d32 : ENHTIM_CONFIGURE_TypeDef) (dev : device) : device :=
  issue (.ENHTIM_CONFIGURE_store d32) dev

/-- HAL call `ENHTIM_SetMaxCount(timer_base, count)`. -/
def ENHTIM_SetMaxCount (count : Nat) (dev : device) : device :=
  issue (.ENHTIM_SetMaxCount count) dev

/-- HAL call `ENHTIM_SetCCValue(timer_base, value)`. -/
def ENHTIM_SetCCValue (value : Nat) (dev : device) : device :=
  issue (.ENHTIM_SetCCValue value) dev

/-- HAL call `ENHTIM_Cmd(timer_base, NewState)`. -/
def ENHTIM_Cmd (NewState : FunctionalState) (dev : device) : device :=
  issue (.ENHTIM_Cmd NewState) dev

/-- HAL call `ENHTIM_Init(timer_base, &init_struct)`. -/
def ENHTIM_Init (init_struct : ENHTIM_InitTypeDef) (dev : device) : device :=
  issue (.ENHTIM_Init init_struct) dev

/-- HAL call `TIM_PWMChangeFreqAndDuty(timer_base, high_count, low_count)`. -/
def TIM_PWMChangeFreqAndDuty (high_count low_count : Nat) (dev : device) : device :=
  issue (.TIM_PWMChangeFreqAndDuty high_count low_count) dev

/-- HAL call `TIM_Cmd(timer_base, NewState)`. -/
def TIM_Cmd (NewState : FunctionalState) (dev : device) : device :=
  issue (.TIM_Cmd NewState) dev

/-- HAL call `TIM_TimeBaseInit(timer_base, &init_struct)`. -/
def TIM_TimeBaseInit (init_struct : TIM_TimeBaseInitTypeDef) (dev : device) : device :=
  issue (.TIM_TimeBaseInit init_struct) dev

/-! ## The driver -/

/-- The driver function `pwm_rtl87x2g_set_cycles`: the return code and the
device after the call. -/
def pwm_rtl87x2g_set_cycles (config : pwm_rtl87x2g_config)
    (channel period_cycles pulse_cycles flags : Nat) (dev : device) : Int × device :=
  if channel > config.channels then
    (-EINVAL, dev)
  else if config.is_enhanced then
    let dev1 :=
      if flags &&& PWM_POLARITY_INVERTED ≠ 0 then
        let enhtim_0x10 := dev.regs.ENHTIM_CONFIGURE
        let enhtim_0x10 :=
          { enhtim_0x10 with
            Enhtimer_PWM_polarity := ENHTIM_PWMStartPolarity.ENHTIM_PWM_START_WITH_HIGH }
        ENHTIM_CONFIGURE_store enhtim_0x10 dev
      else
        dev
    let dev2 :=
      if period_cycles = 0 ∨ pulse_cycles = 0 then
        dev1 |> ENHTIM_SetMaxCount (UINT32_MAX - 1) |> ENHTIM_SetCCValue UINT32_MAX
      else if period_cycles = pulse_cycles then
        dev1 |> ENHTIM_SetCCValue 0
      else
        dev1 |> ENHTIM_SetMaxCount period_cycles |> ENHTIM_SetCCValue pulse_cycles
    (0, dev2 |> ENHTIM_Cmd .DISABLE |> ENHTIM_Cmd .ENABLE)
  else
    let dev1 :=
      if flags &&& PWM_POLARITY_INVERTED ≠ 0 then
        if period_cycles = 0 ∨ pulse_cycles = 0 then
          dev |> TIM_PWMChangeFreqAndDuty UINT32_MAX 0
        else if period_cycles = pulse_cycles then
          dev |> TIM_PWMChangeFreqAndDuty 0 UINT32_MAX
        else
          dev |> TIM_PWMChangeFreqAndDuty (sub32 period_cycles pulse_cycles) pulse_cycles
      else
        if period_cycles = 0 ∨ pulse_cycles = 0 then
          dev |> TIM_PWMChangeFreqAndDuty 0 UINT32_MAX
        else if period_cycles = pulse_cycles then
          dev |> TIM_PWMChangeFreqAndDuty UINT32_MAX 0
        else
          dev |> TIM_PWMChangeFreqAndDuty pulse_cycles (sub32 period_cycles pulse_cycles)
    (0, dev1 |> TIM_Cmd .DISABLE |> TIM_Cmd .ENABLE)

/-- The driver function `pwm_rtl87x2g_get_cycles_per_sec`: the return code, the
value stored to `*cycles` and the device after the call.  The C division is
undefined for a zero divisor, in which case there is no result. -/
def pwm_rtl87x2g_get_cycles_per_sec (config : pwm_rtl87x2g_config)
    (_channel : Nat) (dev : device) : Option (Int × Nat × device) :=
  if config.prescaler = 0 then
    none
  else
    some (0, dev.data.tim_clk / config.prescaler, dev)

/-- The `switch (config->prescaler)` of `pwm_rtl87x2g_init`. -/
def pwm_rtl87x2g_init_clock_div (prescaler : Nat) : ClockDiv :=
  match prescaler with
  | 1 => .CLOCK_DIV_1
  | 2 => .CLOCK_DIV_2
  | 4 => .CLOCK_DIV_4
  | 8 => .CLOCK_DIV_8
  | 16 => .CLOCK_DIV_16
  | 32 => .CLOCK_DIV_32
  | 40 => .CLOCK_DIV_40
  | 64 => .CLOCK_DIV_64
  | _ => .CLOCK_DIV_1

/-- The driver function `pwm_rtl87x2g_init`.  `pinctrl_ret` is the value
returned by `pinctrl_apply_state`; the clock-gate call `clock_control_on`,
whose result the driver discards, does not touch the timer. -/
def pwm_rtl87x2g_init (config : pwm_rtl87x2g_config) (pinctrl_ret : Int)
    (dev : device) : Int × device :=
  let dev := { dev with data := { dev.data with tim_clk := 40000000 } }
  let ret := pinctrl_ret
  if ret < 0 then
    (ret, dev)
  else
    let clock_div := pwm_rtl87x2g_init_clock_div config.prescaler
    if config.is_enhanced then
      let enh_tim_init_struct : ENHTIM_InitTypeDef :=
        { ENHTIM_ClockSource := .CK_40M_TIMER
          ENHTIM_ClockDiv_En := .ENABLE
          ENHTIM_ClockDiv := clock_div
          ENHTIM_Mode := .ENHTIM_MODE_PWM_MANUAL
          ENHTIM_PWMOutputEn := .ENABLE
          ENHTIM_PWMStartPolarity := .ENHTIM_PWM_START_WITH_LOW
          ENHTIM_MaxCount := UINT32_MAX
          ENHTIM_CCValue := 0 }
      (0, dev |> ENHTIM_Init enh_tim_init_struct |> ENHTIM_Cmd .ENABLE)
    else
      let timer_init_struct : TIM_TimeBaseInitTypeDef :=
        { TIM_ClockSrc := .CK_40M_TIMER
          TIM_SOURCE_DIV_En := .ENABLE
          TIM_SOURCE_DIV := clock_div
          TIM_Mode := .TIM_Mode_UserDefine
          TIM_PWM_En := .ENABLE
          TIM_PWM_High_Count := 0
          TIM_PWM_Low_Count := UINT32_MAX }
      (0, dev |> TIM_TimeBaseInit timer_init_struct |> TIM_Cmd .ENABLE)

/-! ## Sample instances -/

/-- A register block before the driver has touched it. -/
def regs_reset : TimerRegs :=
  { enable := .DISABLE
    clock_src := .other 0
    clock_div_en := .DISABLE
    clock_div := .CLOCK_DIV_1
    mode := .other 0
    pwm_en := .DISABLE
    ENHTIM_CONFIGURE := { Enhtimer_PWM_polarity := .ENHTIM_PWM_START_WITH_LOW, rest := 0 }
    max_count := 0
    cc_value := 0
    high_count := 0
    low_count := 0 }

/-- An instance before `pwm_rtl87x2g_init`. -/
def dev_reset : device :=
  { data := { tim_clk := 0 }, regs := regs_reset, trace := [] }

/-- An enhanced timer with one channel and prescaler 1. -/
def config_enh : pwm_rtl87x2g_config :=
  { reg := 0, channels := 1, is_enhanced := true, prescaler := 1, clkid := 0 }

/-- A standard timer with one channel and prescaler 8. -/
def config_std : pwm_rtl87x2g_config :=
  { reg := 0, channels := 1, is_enhanced := false, prescaler := 8, clkid := 0 }

/-- A standard timer with one channel and prescaler 40. -/
def config_std40 : pwm_rtl87x2g_config :=
  { reg := 0, channels := 1, is_enhanced := false, prescaler := 40, clkid := 0 }

/-- A standard timer with one channel whose configured prescaler is 0. -/
def config_std0 : pwm_rtl87x2g_config :=
  { reg := 0, channels := 1, is_enhanced := false, prescaler := 0, clkid := 0 }

/-- A standard timer with one channel and the unrecognized prescaler 3. -/
def config_std3 : pwm_rtl87x2g_config :=
  { reg := 0, channels := 1, is_enhanced := false, prescaler := 3, clkid := 0 }

/-- The enhanced sample instance after a successful initialization. -/
def dev_enh : device := (pwm_rtl87x2g_init config_enh 0 dev_reset).2

/-- The standard sample instance after a successful initialization. -/
def dev_std : device := (pwm_rtl87x2g_init config_std 0 dev_reset).2

/-- The enhanced sample instance after an inverted-polarity general-case
request (period 1000, pulse 250). -/
def dev_enh_inverted : device := (pwm_rtl87x2g_set_cycles config_enh 0 1000 250 1 dev_enh).2

/-! ## Observations on a call -/

/-- The hardware operations a `pwm_rtl87x2g_set_cycles` call performs: what it
appends to the trace of the device it is called on. -/
def set_cycles_ops (config : pwm_rtl87x2g_config)
    (channel period_cycles pulse_cycles flags : Nat) (dev : device) : List HwOp :=
  (pwm_rtl87x2g_set_cycles config channel period_cycles pulse_cycles flags dev).2.trace.drop
    dev.trace.length

/-- A write of a count register: max-count or compare-count of the enhanced
timer, high/low count of the standard timer. -/
def HwOp.isCountWrite : HwOp → Bool
  | .ENHTIM_SetMaxCount _ => true
  | .ENHTIM_SetCCValue _ => true
  | .TIM_PWMChangeFreqAndDuty _ _ => true
  | _ => false

/-- The timer command (`ENHTIM_Cmd` or `TIM_Cmd`) with argument `s`. -/
def HwOp.isCmd (s : FunctionalState) : HwOp → Bool
  | .ENHTIM_Cmd t => decide (t = s)
  | .TIM_Cmd t => decide (t = s)
  | _ => false

/-- The commit order in the words of the specification: before every write of a
count register there is a timer-disable command, and after it a timer-enable
command. -/
def DisableWriteEnable (ops : List HwOp) : Prop :=
  ∀ pre w post, ops = pre ++ w :: post → w.isCountWrite = true →
    (∃ c ∈ pre, c.isCmd .DISABLE = true) ∧ (∃ c ∈ post, c.isCmd .ENABLE = true)

/-- The hardware operations a `pwm_rtl87x2g_init` call performs: what it appends
to the trace of the device it is called on. -/
def init_ops (config : pwm_rtl87x2g_config) (pinctrl_ret : Int) (dev : device) : List HwOp :=
  (pwm_rtl87x2g_init config pinctrl_ret dev).2.trace.drop dev.trace.length

/-- Modelled from the spec: the division ratio a divider code stands for, read
off the name of the constant; the HAL headers that declare the codes are not
among the sources.  The spec calls the code selected for an unrecognized
prescaler the divide-by-1 code. -/
def ClockDiv.divisor : ClockDiv → Nat
  | .CLOCK_DIV_1 => 1
  | .CLOCK_DIV_2 => 2
  | .CLOCK_DIV_4 => 4
  | .CLOCK_DIV_8 => 8
  | .CLOCK_DIV_16 => 16
  | .CLOCK_DIV_32 => 32
  | .CLOCK_DIV_40 => 40
  | .CLOCK_DIV_64 => 64

/-- One call through the driver API (`pwm_rtl87x2g_driver_api`) with its
arguments. -/
inductive ApiCall
  | set_cycles (channel period_cycles pulse_cycles flags : Nat)
  | get_cycles_per_sec (channel : Nat)
  deriving DecidableEq, Repr

/-- The device after one API call; there is none when the call is undefined. -/
def ApiCall.step (config : pwm_rtl87x2g_config) : ApiCall → device → Option device
  | .set_cycles channel period_cycles pulse_cycles flags, dev =>
      some (pwm_rtl87x2g_set_cycles config channel period_cycles pulse_cycles flags dev).2
  | .get_cycles_per_sec channel, dev =>
      (pwm_rtl87x2g_get_cycles_per_sec config channel dev).map (fun r => r.2.2)

/-- The device after a sequence of API calls, first call first. -/
def run_calls (config : pwm_rtl87x2g_config) : List ApiCall → device → Option device
  | [], dev => some dev
  | c :: cs, dev => (c.step config dev).bind (run_calls config cs)

/-- The arguments of one `pwm_rtl87x2g_set_cycles` call. -/
structure set_cycles_args where
  channel : Nat
  period_cycles : Nat
  pulse_cycles : Nat
  flags : Nat
  deriving DecidableEq, Repr

/-- The device after a sequence of `pwm_rtl87x2g_set_cycles` calls, first call
first. -/
def set_cycles_seq (config : pwm_rtl87x2g_config) : List set_cycles_args → device → device
  | [], dev => dev
  | a :: rest, dev =>
      set_cycles_seq config rest
        (pwm_rtl87x2g_set_cycles config a.channel a.period_cycles a.pulse_cycles a.flags
          dev).2

/-- The timer is running: the enable bit is set and the last hardware operation
issued is the enable command. -/
def Running (dev : device) : Prop :=
  dev.regs.enable = .ENABLE ∧ (dev.trace.getLast?.map (HwOp.isCmd .ENABLE)) = some true

/-! ## Basic facts -/

@[simp] theorem issue_regs (op : HwOp) (dev : device) :
    (issue op dev).regs = op.apply dev.regs := rfl

@[simp] theorem issue_trace (op : HwOp) (dev : device) :
    (issue op dev).trace = dev.trace ++ [op] := rfl

@[simp] theorem issue_data (op : HwOp) (dev : device) :
    (issue op dev).data = dev.data := rfl

/-- A channel index above the channel count is rejected with `-EINVAL` and the
device is returned as it was. -/
theorem set_cycles_rejects_above (config : pwm_rtl87x2g_config)
    (channel period_cycles pulse_cycles flags : Nat) (dev : device)
    (h : config.channels < channel) :
    pwm_rtl87x2g_set_cycles config channel period_cycles pulse_cycles flags dev
      = (-EINVAL, dev) := by
  unfold pwm_rtl87x2g_set_cycles
  rw [if_pos h]

/-- A channel index up to and including the channel count is accepted. -/
theorem set_cycles_accepts_upto (config : pwm_rtl87x2g_config)
    (channel period_cycles pulse_cycles flags : Nat) (dev : device)
    (h : channel ≤ config.channels) :
    (pwm_rtl87x2g_set_cycles config channel period_cycles pulse_cycles flags dev).1 = 0 := by
  unfold pwm_rtl87x2g_set_cycles
  rw [if_neg (Nat.not_lt.mpr h)]
  split <;> rfl

/-- The return code is `0` exactly when the channel index does not exceed the
channel count. -/
theorem set_cycles_ret_eq_zero_iff (config : pwm_rtl87x2g_config)
    (channel period_cycles pulse_cycles flags : Nat) (dev : device) :
    (pwm_rtl87x2g_set_cycles config channel period_cycles pulse_cycles flags dev).1 = 0
      ↔ channel ≤ config.channels := by
  constructor
  · intro h
    by_contra hc
    rw [set_cycles_rejects_above config channel period_cycles pulse_cycles flags dev
      (Nat.not_le.mp hc)] at h
    simp [EINVAL] at h
  · exact set_cycles_accepts_upto config channel period_cycles pulse_cycles flags dev

/-- An accepted call on the enhanced timer, written without local names. -/
theorem set_cycles_enhanced_eq (config : pwm_rtl87x2g_config)
    (channel period_cycles pulse_cycles flags : Nat) (dev : device)
    (hch : channel ≤ config.channels) (he : config.is_enhanced = true) :
    pwm_rtl87x2g_set_cycles config channel period_cycles pulse_cycles flags dev =
      (0, ENHTIM_Cmd .ENABLE (ENHTIM_Cmd .DISABLE
        (if period_cycles = 0 ∨ pulse_cycles = 0 then
          ENHTIM_SetCCValue UINT32_MAX (ENHTIM_SetMaxCount (UINT32_MAX - 1)
            (if flags &&& PWM_POLARITY_INVERTED ≠ 0 then
              ENHTIM_CONFIGURE_store
                { dev.regs.ENHTIM_CONFIGURE with
                  Enhtimer_PWM_polarity := .ENHTIM_PWM_START_WITH_HIGH } dev
            else dev))
        else if period_cycles = pulse_cycles then
          ENHTIM_SetCCValue 0
            (if flags &&& PWM_POLARITY_INVERTED ≠ 0 then
              ENHTIM_CONFIGURE_store
                { dev.regs.ENHTIM_CONFIGURE with
                  Enhtimer_PWM_polarity := .ENHTIM_PWM_START_WITH_HIGH } dev
            else dev)
        else
          ENHTIM_SetCCValue pulse_cycles (ENHTIM_SetMaxCount period_cycles
            (if flags &&& PWM_POLARITY_INVERTED ≠ 0 then
              ENHTIM_CONFIGURE_store
                { dev.regs.ENHTIM_CONFIGURE with
                  Enhtimer_PWM_polarity := .ENHTIM_PWM_START_WITH_HIGH } dev
            else dev))))) := by
  unfold pwm_rtl87x2g_set_cycles
  rw [if_neg (Nat.not_lt.mpr hch), if_pos he]

/-- An accepted call on the standard timer, written without local names. -/
theorem set_cycles_standard_eq (config : pwm_rtl87x2g_config)
    (channel period_cycles pulse_cycles flags : Nat) (dev : device)
    (hch : channel ≤ config.channels) (he : config.is_enhanced = false) :
    pwm_rtl87x2g_set_cycles config channel period_cycles pulse_cycles flags dev =
      (0, TIM_Cmd .ENABLE (TIM_Cmd .DISABLE
        (if flags &&& PWM_POLARITY_INVERTED ≠ 0 then
          if period_cycles = 0 ∨ pulse_cycles = 0 then
            TIM_PWMChangeFreqAndDuty UINT32_MAX 0 dev
          else if period_cycles = pulse_cycles then
            TIM_PWMChangeFreqAndDuty 0 UINT32_MAX dev
          else
            TIM_PWMChangeFreqAndDuty (sub32 period_cycles pulse_cycles) pulse_cycles dev
        else
          if period_cycles = 0 ∨ pulse_cycles = 0 then
            TIM_PWMChangeFreqAndDuty 0 UINT32_MAX dev
          else if period_cycles = pulse_cycles then
            TIM_PWMChangeFreqAndDuty UINT32_MAX 0 dev
          else
            TIM_PWMChangeFreqAndDuty pulse_cycles (sub32 period_cycles pulse_cycles) dev))) := by
  unfold pwm_rtl87x2g_set_cycles
  rw [if_neg (Nat.not_lt.mpr hch), he]
  rfl

/-- The 32-bit subtraction does not wrap when the subtrahend is not larger. -/
theorem sub32_of_le (a b : Nat) (hba : b ≤ a) (ha : a < 2 ^ 32) : sub32 a b = a - b := by
  unfold sub32
  omega

/-- High and low count after an accepted call on the standard timer. -/
theorem set_cycles_standard_counts (config : pwm_rtl87x2g_config)
    (channel period_cycles pulse_cycles flags : Nat) (dev : device)
    (hch : channel ≤ config.channels) (he : config.is_enhanced = false) :
    ((pwm_rtl87x2g_set_cycles config channel period_cycles pulse_cycles flags
        dev).2.regs.high_count,
     (pwm_rtl87x2g_set_cycles config channel period_cycles pulse_cycles flags
        dev).2.regs.low_count) =
      if flags &&& PWM_POLARITY_INVERTED ≠ 0 then
        if period_cycles = 0 ∨ pulse_cycles = 0 then (UINT32_MAX, 0)
        else if period_cycles = pulse_cycles then (0, UINT32_MAX)
        else (sub32 period_cycles pulse_cycles, pulse_cycles)
      else
        if period_cycles = 0 ∨ pulse_cycles = 0 then (0, UINT32_MAX)
        else if period_cycles = pulse_cycles then (UINT32_MAX, 0)
        else (pulse_cycles, sub32 period_cycles pulse_cycles) := by
  rw [set_cycles_standard_eq _ _ _ _ _ _ hch he]
  split_ifs <;> rfl

/-- Initialization records the 40 MHz timer clock on every path. -/
theorem init_tim_clk (config : pwm_rtl87x2g_config) (pinctrl_ret : Int) (dev : device) :
    (pwm_rtl87x2g_init config pinctrl_ret dev).2.data.tim_clk = 40000000 := by
  unfold pwm_rtl87x2g_init
  simp only
  split_ifs <;> rfl

/-! ## Claims -/

/-- C1: the claim asks that a channel index equal to the channel count is
rejected with `-EINVAL` and no register write.  On the one-channel enhanced
instance the call with channel 1 is not rejected: it returns 0 and performs the
four general-case operations, changing max-count and compare-count. -/
theorem set_cycles_boundary_channel_not_rejected :
    config_enh.channels = 1 ∧
    (pwm_rtl87x2g_set_cycles config_enh 1 1000 250 0 dev_enh).1 = 0 ∧
    set_cycles_ops config_enh 1 1000 250 0 dev_enh =
      [.ENHTIM_SetMaxCount 1000, .ENHTIM_SetCCValue 250,
       .ENHTIM_Cmd .DISABLE, .ENHTIM_Cmd .ENABLE] ∧
    dev_enh.regs.max_count = 4294967295 ∧ dev_enh.regs.cc_value = 0 ∧
    (pwm_rtl87x2g_set_cycles config_enh 1 1000 250 0 dev_enh).2.regs.max_count = 1000 ∧
    (pwm_rtl87x2g_set_cycles config_enh 1 1000 250 0 dev_enh).2.regs.cc_value = 250 := by
  decide

/-- C2 as stated fails: in the general case on the enhanced timer the first
operation of the call is the max-count write, with no disable command before
it. -/
theorem set_cycles_writes_before_disable :
    set_cycles_ops config_enh 0 1000 250 0 dev_enh =
      [.ENHTIM_SetMaxCount 1000, .ENHTIM_SetCCValue 250,
       .ENHTIM_Cmd .DISABLE, .ENHTIM_Cmd .ENABLE] ∧
    ¬ DisableWriteEnable (set_cycles_ops config_enh 0 1000 250 0 dev_enh) := by
  have hops : set_cycles_ops config_enh 0 1000 250 0 dev_enh =
      [.ENHTIM_SetMaxCount 1000, .ENHTIM_SetCCValue 250,
       .ENHTIM_Cmd .DISABLE, .ENHTIM_Cmd .ENABLE] := by decide
  refine ⟨hops, ?_⟩
  intro h
  rw [hops] at h
  obtain ⟨⟨c, hc, _⟩, _⟩ := h [] (.ENHTIM_SetMaxCount 1000)
    [.ENHTIM_SetCCValue 250, .ENHTIM_Cmd .DISABLE, .ENHTIM_Cmd .ENABLE] rfl rfl
  simp at hc

/-- C2, amended: the operations of every successful call are, in this order:
the configure-register store with START_WITH_HIGH, present exactly when the
timer is the enhanced one and inverted polarity is requested; a non-empty block
consisting of count-register writes only; the disable command; and, as the last
operation, the enable command, both commands being those of the timer
variant. -/
theorem set_cycles_commit_order (config : pwm_rtl87x2g_config)
    (channel period_cycles pulse_cycles flags : Nat) (dev : device)
    (hret : (pwm_rtl87x2g_set_cycles config channel period_cycles pulse_cycles flags dev).1
      = 0) :
    ∃ (store ws : List HwOp) (cmd : FunctionalState → HwOp),
      set_cycles_ops config channel period_cycles pulse_cycles flags dev
        = store ++ ws ++ [cmd .DISABLE, cmd .ENABLE] ∧
      store =
        (if config.is_enhanced = true ∧ flags &&& PWM_POLARITY_INVERTED ≠ 0 then
          [HwOp.ENHTIM_CONFIGURE_store
            { dev.regs.ENHTIM_CONFIGURE with
              Enhtimer_PWM_polarity := .ENHTIM_PWM_START_WITH_HIGH }]
        else []) ∧
      cmd = (if config.is_enhanced = true then HwOp.ENHTIM_Cmd else HwOp.TIM_Cmd) ∧
      ws ≠ [] ∧
      (∀ w ∈ ws, w.isCountWrite = true) := by
  have hch := (set_cycles_ret_eq_zero_iff _ _ _ _ _ _).mp hret
  unfold set_cycles_ops
  by_cases he : config.is_enhanced = true
  · rw [set_cycles_enhanced_eq _ _ _ _ _ _ hch he]
    by_cases hf : flags &&& PWM_POLARITY_INVERTED ≠ 0
    · simp only [if_pos hf, if_pos (And.intro he hf), if_pos he]
      split_ifs <;>
        simp only [ENHTIM_CONFIGURE_store, ENHTIM_SetMaxCount, ENHTIM_SetCCValue, ENHTIM_Cmd,
          issue_trace, issue_regs, List.append_assoc, List.drop_left,
          List.singleton_append] <;>
        first
          | refine ⟨[_], [_], HwOp.ENHTIM_Cmd, rfl, rfl, rfl, ?_, ?_⟩ <;>
              simp [HwOp.isCountWrite]
          | refine ⟨[_], [_, _], HwOp.ENHTIM_Cmd, rfl, rfl, rfl, ?_, ?_⟩ <;>
              simp [HwOp.isCountWrite]
    · have hnot : ¬ (config.is_enhanced = true ∧ flags &&& PWM_POLARITY_INVERTED ≠ 0) :=
        fun h => hf h.2
      simp only [if_neg hf, if_neg hnot, if_pos he]
      split_ifs <;>
        simp only [ENHTIM_SetMaxCount, ENHTIM_SetCCValue, ENHTIM_Cmd,
          issue_trace, List.append_assoc, List.drop_left, List.singleton_append] <;>
        first
          | refine ⟨[], [_], HwOp.ENHTIM_Cmd, rfl, rfl, rfl, ?_, ?_⟩ <;>
              simp [HwOp.isCountWrite]
          | refine ⟨[], [_, _], HwOp.ENHTIM_Cmd, rfl, rfl, rfl, ?_, ?_⟩ <;>
              simp [HwOp.isCountWrite]
  · have hstd : config.is_enhanced = false := by
      cases h : config.is_enhanced
      · rfl
      · exact absurd h he
    have hnot : ¬ (config.is_enhanced = true ∧ flags &&& PWM_POLARITY_INVERTED ≠ 0) :=
      fun h => he h.1
    rw [set_cycles_standard_eq _ _ _ _ _ _ hch hstd]
    simp only [if_neg hnot, if_neg he]
    split_ifs <;>
      simp only [TIM_PWMChangeFreqAndDuty, TIM_Cmd, issue_trace, List.append_assoc,
        List.drop_left, List.singleton_append] <;>
      refine ⟨[], [_], HwOp.TIM_Cmd, rfl, rfl, rfl, ?_, ?_⟩ <;>
      simp [HwOp.isCountWrite]

/-- The commit order on the enhanced sample instance for an inverted
general-case request: the configure store, the two count writes, the disable
and the enable command. -/
theorem set_cycles_commit_order_witness :
    (pwm_rtl87x2g_set_cycles config_enh 0 1000 250 1 dev_enh).1 = 0 ∧
    set_cycles_ops config_enh 0 1000 250 1 dev_enh =
      [.ENHTIM_CONFIGURE_store
          { dev_enh.regs.ENHTIM_CONFIGURE with
            Enhtimer_PWM_polarity := .ENHTIM_PWM_START_WITH_HIGH },
       .ENHTIM_SetMaxCount 1000, .ENHTIM_SetCCValue 250,
       .ENHTIM_Cmd .DISABLE, .ENHTIM_Cmd .ENABLE] ∧
    ∃ (store ws : List HwOp) (cmd : FunctionalState → HwOp),
      set_cycles_ops config_enh 0 1000 250 1 dev_enh
        = store ++ ws ++ [cmd .DISABLE, cmd .ENABLE] ∧
      store =
        (if config_enh.is_enhanced = true ∧ 1 &&& PWM_POLARITY_INVERTED ≠ 0 then
          [HwOp.ENHTIM_CONFIGURE_store
            { dev_enh.regs.ENHTIM_CONFIGURE with
              Enhtimer_PWM_polarity := .ENHTIM_PWM_START_WITH_HIGH }]
        else []) ∧
      cmd = (if config_enh.is_enhanced = true then HwOp.ENHTIM_Cmd else HwOp.TIM_Cmd) ∧
      ws ≠ [] ∧
      (∀ w ∈ ws, w.isCountWrite = true) :=
  ⟨by decide, by decide,
   set_cycles_commit_order config_enh 0 1000 250 1 dev_enh (by decide)⟩

/-- C3: on the enhanced timer a general-case request on a valid channel returns
0 and leaves max-count = `period_cycles` and compare-count = `pulse_cycles`;
without the inverted flag the start-polarity bit keeps its prior value. -/
theorem set_cycles_enhanced_general (config : pwm_rtl87x2g_config)
    (channel period_cycles pulse_cycles flags : Nat) (dev : device)
    (he : config.is_enhanced = true) (hch : channel < config.channels)
    (hp : period_cycles ≠ 0) (hq : pulse_cycles ≠ 0) (hne : period_cycles ≠ pulse_cycles) :
    (pwm_rtl87x2g_set_cycles config channel period_cycles pulse_cycles flags dev).1 = 0 ∧
    (pwm_rtl87x2g_set_cycles config channel period_cycles pulse_cycles flags dev).2.regs.max_count
      = period_cycles ∧
    (pwm_rtl87x2g_set_cycles config channel period_cycles pulse_cycles flags dev).2.regs.cc_value
      = pulse_cycles ∧
    (flags &&& PWM_POLARITY_INVERTED = 0 →
      (pwm_rtl87x2g_set_cycles config channel period_cycles pulse_cycles flags
          dev).2.regs.ENHTIM_CONFIGURE.Enhtimer_PWM_polarity
        = dev.regs.ENHTIM_CONFIGURE.Enhtimer_PWM_polarity) := by
  have hz : ¬ (period_cycles = 0 ∨ pulse_cycles = 0) := by
    rintro (h | h)
    · exact hp h
    · exact hq h
  rw [set_cycles_enhanced_eq _ _ _ _ _ _ (Nat.le_of_lt hch) he, if_neg hz, if_neg hne]
  refine ⟨rfl, rfl, rfl, ?_⟩
  intro hf
  simp [hf, ENHTIM_Cmd, ENHTIM_SetCCValue, ENHTIM_SetMaxCount, HwOp.apply]

/-- The scenario period 1000, pulse 250, normal polarity on the enhanced sample instance. -/
theorem set_cycles_enhanced_general_witness :
    (pwm_rtl87x2g_set_cycles config_enh 0 1000 250 0 dev_enh).1 = 0 ∧
    (pwm_rtl87x2g_set_cycles config_enh 0 1000 250 0 dev_enh).2.regs.max_count = 1000 ∧
    (pwm_rtl87x2g_set_cycles config_enh 0 1000 250 0 dev_enh).2.regs.cc_value = 250 ∧
    (0 &&& PWM_POLARITY_INVERTED = 0 →
      (pwm_rtl87x2g_set_cycles config_enh 0 1000 250 0
          dev_enh).2.regs.ENHTIM_CONFIGURE.Enhtimer_PWM_polarity
        = dev_enh.regs.ENHTIM_CONFIGURE.Enhtimer_PWM_polarity) :=
  set_cycles_enhanced_general config_enh 0 1000 250 0 dev_enh rfl (by decide) (by decide)
    (by decide) (by decide)

/-- C4: on the enhanced timer a request with `period_cycles = 0` or
`pulse_cycles = 0` on a valid channel leaves max-count = 2^32 - 2 and
compare-count = 2^32 - 1, and the only count-register writes of the call are
these two. -/
theorem set_cycles_enhanced_zero (config : pwm_rtl87x2g_config)
    (channel period_cycles pulse_cycles flags : Nat) (dev : device)
    (he : config.is_enhanced = true) (hch : channel < config.channels)
    (hz : period_cycles = 0 ∨ pulse_cycles = 0) :
    (pwm_rtl87x2g_set_cycles config channel period_cycles pulse_cycles flags dev).2.regs.max_count
      = 2 ^ 32 - 2 ∧
    (pwm_rtl87x2g_set_cycles config channel period_cycles pulse_cycles flags dev).2.regs.cc_value
      = 2 ^ 32 - 1 ∧
    (set_cycles_ops config channel period_cycles pulse_cycles flags dev).filter
        HwOp.isCountWrite
      = [.ENHTIM_SetMaxCount (2 ^ 32 - 2), .ENHTIM_SetCCValue (2 ^ 32 - 1)] := by
  unfold set_cycles_ops
  rw [set_cycles_enhanced_eq _ _ _ _ _ _ (Nat.le_of_lt hch) he, if_pos hz]
  refine ⟨rfl, rfl, ?_⟩
  split_ifs <;>
    simp [ENHTIM_CONFIGURE_store, ENHTIM_SetMaxCount, ENHTIM_SetCCValue, ENHTIM_Cmd,
      HwOp.isCountWrite, UINT32_MAX, List.filter]

/-- The zero case with period 0 and inverted polarity on the enhanced sample instance. -/
theorem set_cycles_enhanced_zero_witness :
    (pwm_rtl87x2g_set_cycles config_enh 0 0 250 1 dev_enh).2.regs.max_count = 2 ^ 32 - 2 ∧
    (pwm_rtl87x2g_set_cycles config_enh 0 0 250 1 dev_enh).2.regs.cc_value = 2 ^ 32 - 1 ∧
    (set_cycles_ops config_enh 0 0 250 1 dev_enh).filter HwOp.isCountWrite
      = [.ENHTIM_SetMaxCount (2 ^ 32 - 2), .ENHTIM_SetCCValue (2 ^ 32 - 1)] :=
  set_cycles_enhanced_zero config_enh 0 0 250 1 dev_enh rfl (by decide) (Or.inl rfl)

/-- C5: on the standard timer a request with `period_cycles = 0` or
`pulse_cycles = 0` on a valid channel programs the 0% pair for the requested
polarity: normal polarity gives high-count 0 and low-count 0xFFFFFFFF, which is
also the pair a successful initialization commits; inverted polarity gives
high-count 0xFFFFFFFF and low-count 0. -/
theorem set_cycles_standard_zero (config : pwm_rtl87x2g_config)
    (channel period_cycles pulse_cycles flags : Nat) (dev : device)
    (he : config.is_enhanced = false) (hch : channel < config.channels)
    (hz : period_cycles = 0 ∨ pulse_cycles = 0) :
    (pwm_rtl87x2g_set_cycles config channel period_cycles pulse_cycles flags dev).1 = 0 ∧
    (flags &&& PWM_POLARITY_INVERTED = 0 →
      set_cycles_ops config channel period_cycles pulse_cycles flags dev
        = [.TIM_PWMChangeFreqAndDuty 0 0xFFFFFFFF, .TIM_Cmd .DISABLE, .TIM_Cmd .ENABLE] ∧
      (pwm_rtl87x2g_set_cycles config channel period_cycles pulse_cycles flags
        dev).2.regs.high_count = 0 ∧
      (pwm_rtl87x2g_set_cycles config channel period_cycles pulse_cycles flags
        dev).2.regs.low_count = 0xFFFFFFFF ∧
      ∀ (pinctrl_ret : Int) (dev0 : device), 0 ≤ pinctrl_ret →
        (pwm_rtl87x2g_init config pinctrl_ret dev0).2.regs.high_count = 0 ∧
        (pwm_rtl87x2g_init config pinctrl_ret dev0).2.regs.low_count = 0xFFFFFFFF) ∧
    (flags &&& PWM_POLARITY_INVERTED ≠ 0 →
      set_cycles_ops config channel period_cycles pulse_cycles flags dev
        = [.TIM_PWMChangeFreqAndDuty 0xFFFFFFFF 0, .TIM_Cmd .DISABLE, .TIM_Cmd .ENABLE] ∧
      (pwm_rtl87x2g_set_cycles config channel period_cycles pulse_cycles flags
        dev).2.regs.high_count = 0xFFFFFFFF ∧
      (pwm_rtl87x2g_set_cycles config channel period_cycles pulse_cycles flags
        dev).2.regs.low_count = 0) := by
  unfold set_cycles_ops
  rw [set_cycles_standard_eq _ _ _ _ _ _ (Nat.le_of_lt hch) he, if_pos hz, if_pos hz]
  refine ⟨rfl, ?_, ?_⟩
  · intro hf
    rw [if_neg (not_not.mpr hf)]
    refine ⟨?_, rfl, rfl, ?_⟩
    · simp [TIM_Cmd, TIM_PWMChangeFreqAndDuty, UINT32_MAX]
    · intro pinctrl_ret dev0 hret
      unfold pwm_rtl87x2g_init
      simp only [if_neg (not_lt.mpr hret), he]
      exact ⟨rfl, rfl⟩
  · intro hf
    rw [if_pos hf]
    refine ⟨?_, rfl, rfl⟩
    simp [TIM_Cmd, TIM_PWMChangeFreqAndDuty, UINT32_MAX]

/-- The scenario period 0, pulse 0, inverted polarity on the standard sample instance with prescaler 8. -/
theorem set_cycles_standard_zero_witness :
    (pwm_rtl87x2g_set_cycles config_std 0 0 0 1 dev_std).1 = 0 ∧
    (1 &&& PWM_POLARITY_INVERTED ≠ 0 →
      set_cycles_ops config_std 0 0 0 1 dev_std
        = [.TIM_PWMChangeFreqAndDuty 0xFFFFFFFF 0, .TIM_Cmd .DISABLE, .TIM_Cmd .ENABLE] ∧
      (pwm_rtl87x2g_set_cycles config_std 0 0 0 1 dev_std).2.regs.high_count = 0xFFFFFFFF ∧
      (pwm_rtl87x2g_set_cycles config_std 0 0 0 1 dev_std).2.regs.low_count = 0) :=
  ⟨(set_cycles_standard_zero config_std 0 0 0 1 dev_std rfl (by decide) (Or.inl rfl)).1,
   (set_cycles_standard_zero config_std 0 0 0 1 dev_std rfl (by decide) (Or.inl rfl)).2.2⟩

/-- C6: for nonzero `p` and `q`, the requests period = pulse = `p` and
period = pulse = `q` on a valid channel give the same return code and the same
device state, and that state carries the 100% encoding: compare-count 0 on the
enhanced timer; on the standard timer high-count 0xFFFFFFFF, low-count 0 with
normal polarity and high-count 0, low-count 0xFFFFFFFF with inverted
polarity. -/
theorem set_cycles_full_value_independent (config : pwm_rtl87x2g_config)
    (channel p q flags : Nat) (dev : device)
    (hch : channel < config.channels) (hp : p ≠ 0) (hq : q ≠ 0) :
    pwm_rtl87x2g_set_cycles config channel p p flags dev
      = pwm_rtl87x2g_set_cycles config channel q q flags dev ∧
    (config.is_enhanced = true →
      (pwm_rtl87x2g_set_cycles config channel p p flags dev).2.regs.cc_value = 0) ∧
    (config.is_enhanced = false → flags &&& PWM_POLARITY_INVERTED = 0 →
      (pwm_rtl87x2g_set_cycles config channel p p flags dev).2.regs.high_count = 0xFFFFFFFF ∧
      (pwm_rtl87x2g_set_cycles config channel p p flags dev).2.regs.low_count = 0) ∧
    (config.is_enhanced = false → flags &&& PWM_POLARITY_INVERTED ≠ 0 →
      (pwm_rtl87x2g_set_cycles config channel p p flags dev).2.regs.high_count = 0 ∧
      (pwm_rtl87x2g_set_cycles config channel p p flags dev).2.regs.low_count = 0xFFFFFFFF) := by
  have hzp : ¬ (p = 0 ∨ p = 0) := by simp [hp]
  have hzq : ¬ (q = 0 ∨ q = 0) := by simp [hq]
  refine ⟨?_, ?_, ?_, ?_⟩
  · cases he : config.is_enhanced
    · rw [set_cycles_standard_eq _ _ _ _ _ _ (Nat.le_of_lt hch) he,
        set_cycles_standard_eq _ _ _ _ _ _ (Nat.le_of_lt hch) he]
      simp only [if_neg hzp, if_neg hzq, if_true]
    · rw [set_cycles_enhanced_eq _ _ _ _ _ _ (Nat.le_of_lt hch) he,
        set_cycles_enhanced_eq _ _ _ _ _ _ (Nat.le_of_lt hch) he]
      simp only [if_neg hzp, if_neg hzq, if_true]
  · intro he
    rw [set_cycles_enhanced_eq _ _ _ _ _ _ (Nat.le_of_lt hch) he, if_neg hzp, if_pos rfl]
    rfl
  · intro he hf
    rw [set_cycles_standard_eq _ _ _ _ _ _ (Nat.le_of_lt hch) he, if_neg (not_not.mpr hf),
      if_neg hzp, if_pos rfl]
    exact ⟨rfl, rfl⟩
  · intro he hf
    rw [set_cycles_standard_eq _ _ _ _ _ _ (Nat.le_of_lt hch) he, if_pos hf,
      if_neg hzp, if_pos rfl]
    exact ⟨rfl, rfl⟩

/-- The values 1 and 4000000000 on the enhanced sample instance. -/
theorem set_cycles_full_value_independent_witness :
    pwm_rtl87x2g_set_cycles config_enh 0 1 1 0 dev_enh
      = pwm_rtl87x2g_set_cycles config_enh 0 4000000000 4000000000 0 dev_enh ∧
    (pwm_rtl87x2g_set_cycles config_enh 0 1 1 0 dev_enh).2.regs.cc_value = 0 :=
  ⟨(set_cycles_full_value_independent config_enh 0 1 4000000000 0 dev_enh (by decide)
      (by decide) (by decide)).1,
   (set_cycles_full_value_independent config_enh 0 1 4000000000 0 dev_enh (by decide)
      (by decide) (by decide)).2.1 rfl⟩

/-- C7: on the standard timer, for 32-bit counts with
`0 < pulse_cycles < period_cycles` on a valid channel, high-count plus low-count
is exactly `period_cycles`; the active register (high-count with normal
polarity, low-count with inverted polarity) holds `pulse_cycles` and the other
one `period_cycles - pulse_cycles`. -/
theorem set_cycles_standard_general_sum (config : pwm_rtl87x2g_config)
    (channel period_cycles pulse_cycles flags : Nat) (dev : device)
    (he : config.is_enhanced = false) (hch : channel < config.channels)
    (hpos : 0 < pulse_cycles) (hlt : pulse_cycles < period_cycles)
    (h32 : period_cycles < 2 ^ 32) :
    (pwm_rtl87x2g_set_cycles config channel period_cycles pulse_cycles flags
        dev).2.regs.high_count +
      (pwm_rtl87x2g_set_cycles config channel period_cycles pulse_cycles flags
        dev).2.regs.low_count = period_cycles ∧
    (flags &&& PWM_POLARITY_INVERTED = 0 →
      (pwm_rtl87x2g_set_cycles config channel period_cycles pulse_cycles flags
        dev).2.regs.high_count = pulse_cycles ∧
      (pwm_rtl87x2g_set_cycles config channel period_cycles pulse_cycles flags
        dev).2.regs.low_count = period_cycles - pulse_cycles) ∧
    (flags &&& PWM_POLARITY_INVERTED ≠ 0 →
      (pwm_rtl87x2g_set_cycles config channel period_cycles pulse_cycles flags
        dev).2.regs.low_count = pulse_cycles ∧
      (pwm_rtl87x2g_set_cycles config channel period_cycles pulse_cycles flags
        dev).2.regs.high_count = period_cycles - pulse_cycles) := by
  have hc := set_cycles_standard_counts config channel period_cycles pulse_cycles flags dev
    (Nat.le_of_lt hch) he
  have hz : ¬ (period_cycles = 0 ∨ pulse_cycles = 0) := by omega
  have hne : ¬ period_cycles = pulse_cycles := by omega
  rw [if_neg hz, if_neg hz, if_neg hne, if_neg hne,
    sub32_of_le _ _ (Nat.le_of_lt hlt) h32] at hc
  by_cases hf : flags &&& PWM_POLARITY_INVERTED ≠ 0
  · rw [if_pos hf] at hc
    obtain ⟨h1, h2⟩ := Prod.mk.inj hc
    refine ⟨by omega, fun h0 => absurd h0 hf, fun _ => ⟨h2, h1⟩⟩
  · rw [if_neg hf] at hc
    obtain ⟨h1, h2⟩ := Prod.mk.inj hc
    refine ⟨by omega, fun _ => ⟨h1, h2⟩, fun h0 => absurd h0 hf⟩

/-- The request period 1000, pulse 250, inverted polarity on the standard sample instance. -/
theorem set_cycles_standard_general_sum_witness :
    (pwm_rtl87x2g_set_cycles config_std 0 1000 250 1 dev_std).2.regs.high_count +
      (pwm_rtl87x2g_set_cycles config_std 0 1000 250 1 dev_std).2.regs.low_count = 1000 ∧
    (pwm_rtl87x2g_set_cycles config_std 0 1000 250 1 dev_std).2.regs.low_count = 250 ∧
    (pwm_rtl87x2g_set_cycles config_std 0 1000 250 1 dev_std).2.regs.high_count
      = 1000 - 250 :=
  ⟨(set_cycles_standard_general_sum config_std 0 1000 250 1 dev_std rfl (by decide)
      (by decide) (by decide) (by decide)).1,
   (set_cycles_standard_general_sum config_std 0 1000 250 1 dev_std rfl (by decide)
      (by decide) (by decide) (by decide)).2.2 (by decide)⟩

/-- C8: on the standard timer, for all cycle counts, the (high-count, low-count)
pair programmed with inverted polarity is the pair programmed with normal
polarity with its components swapped, whatever the prior states; and a normal,
an inverted and again a normal request with the same counts end with the pair
of the first one. -/
theorem set_cycles_standard_polarity_swap (config : pwm_rtl87x2g_config)
    (channel period_cycles pulse_cycles flags_n flags_i : Nat) (dev_n dev_i : device)
    (he : config.is_enhanced = false) (hch : channel < config.channels)
    (hn : flags_n &&& PWM_POLARITY_INVERTED = 0)
    (hi : flags_i &&& PWM_POLARITY_INVERTED ≠ 0) :
    ((pwm_rtl87x2g_set_cycles config channel period_cycles pulse_cycles flags_i
        dev_i).2.regs.high_count
      = (pwm_rtl87x2g_set_cycles config channel period_cycles pulse_cycles flags_n
        dev_n).2.regs.low_count ∧
     (pwm_rtl87x2g_set_cycles config channel period_cycles pulse_cycles flags_i
        dev_i).2.regs.low_count
      = (pwm_rtl87x2g_set_cycles config channel period_cycles pulse_cycles flags_n
        dev_n).2.regs.high_count) ∧
    ((pwm_rtl87x2g_set_cycles config channel period_cycles pulse_cycles flags_n
        (pwm_rtl87x2g_set_cycles config channel period_cycles pulse_cycles flags_i
          (pwm_rtl87x2g_set_cycles config channel period_cycles pulse_cycles flags_n
            dev_n).2).2).2.regs.high_count
      = (pwm_rtl87x2g_set_cycles config channel period_cycles pulse_cycles flags_n
        dev_n).2.regs.high_count ∧
     (pwm_rtl87x2g_set_cycles config channel period_cycles pulse_cycles flags_n
        (pwm_rtl87x2g_set_cycles config channel period_cycles pulse_cycles flags_i
          (pwm_rtl87x2g_set_cycles config channel period_cycles pulse_cycles flags_n
            dev_n).2).2).2.regs.low_count
      = (pwm_rtl87x2g_set_cycles config channel period_cycles pulse_cycles flags_n
        dev_n).2.regs.low_count) := by
  have hle := Nat.le_of_lt hch
  have hI := set_cycles_standard_counts config channel period_cycles pulse_cycles flags_i
    dev_i hle he
  have hN := set_cycles_standard_counts config channel period_cycles pulse_cycles flags_n
    dev_n hle he
  have hN3 := set_cycles_standard_counts config channel period_cycles pulse_cycles flags_n
    (pwm_rtl87x2g_set_cycles config channel period_cycles pulse_cycles flags_i
      (pwm_rtl87x2g_set_cycles config channel period_cycles pulse_cycles flags_n
        dev_n).2).2 hle he
  rw [if_pos hi] at hI
  rw [if_neg (not_not.mpr hn)] at hN hN3
  refine ⟨?_, ?_⟩
  · split_ifs at hI hN <;>
      · obtain ⟨h1, h2⟩ := Prod.mk.inj hI
        obtain ⟨h3, h4⟩ := Prod.mk.inj hN
        exact ⟨h1.trans h4.symm, h2.trans h3.symm⟩
  · obtain ⟨h1, h2⟩ := Prod.mk.inj (hN3.trans hN.symm)
    exact ⟨h1, h2⟩

/-- The request period 1000, pulse 250 with both polarities on the standard sample instance. -/
theorem set_cycles_standard_polarity_swap_witness :
    (pwm_rtl87x2g_set_cycles config_std 0 1000 250 1 dev_std).2.regs.high_count
      = (pwm_rtl87x2g_set_cycles config_std 0 1000 250 0 dev_std).2.regs.low_count ∧
    (pwm_rtl87x2g_set_cycles config_std 0 1000 250 1 dev_std).2.regs.low_count
      = (pwm_rtl87x2g_set_cycles config_std 0 1000 250 0 dev_std).2.regs.high_count :=
  (set_cycles_standard_polarity_swap config_std 0 1000 250 0 1 dev_std dev_std rfl
    (by decide) (by decide) (by decide)).1

/-- C9 as stated fails: the same normal-polarity 100% request (period = pulse =
500) applied to the enhanced instance right after initialization and after an
earlier inverted general-case request leaves different max-count values and
different start-polarity bits; both are left over from the earlier state. -/
theorem set_cycles_enhanced_keeps_earlier_state :
    (pwm_rtl87x2g_set_cycles config_enh 0 500 500 0 dev_enh).1 = 0 ∧
    (pwm_rtl87x2g_set_cycles config_enh 0 500 500 0 dev_enh_inverted).1 = 0 ∧
    (pwm_rtl87x2g_set_cycles config_enh 0 500 500 0 dev_enh).2.regs.max_count = 4294967295 ∧
    (pwm_rtl87x2g_set_cycles config_enh 0 500 500 0 dev_enh_inverted).2.regs.max_count
      = 1000 ∧
    (pwm_rtl87x2g_set_cycles config_enh 0 500 500 0
        dev_enh).2.regs.ENHTIM_CONFIGURE.Enhtimer_PWM_polarity
      = .ENHTIM_PWM_START_WITH_LOW ∧
    (pwm_rtl87x2g_set_cycles config_enh 0 500 500 0
        dev_enh_inverted).2.regs.ENHTIM_CONFIGURE.Enhtimer_PWM_polarity
      = .ENHTIM_PWM_START_WITH_HIGH ∧
    ¬ (∀ dev1 dev2 : device,
        (pwm_rtl87x2g_set_cycles config_enh 0 500 500 0 dev1).2.regs.max_count
          = (pwm_rtl87x2g_set_cycles config_enh 0 500 500 0 dev2).2.regs.max_count ∧
        (pwm_rtl87x2g_set_cycles config_enh 0 500 500 0
            dev1).2.regs.ENHTIM_CONFIGURE.Enhtimer_PWM_polarity
          = (pwm_rtl87x2g_set_cycles config_enh 0 500 500 0
            dev2).2.regs.ENHTIM_CONFIGURE.Enhtimer_PWM_polarity) := by
  refine ⟨by decide, by decide, by decide, by decide, by decide, by decide, ?_⟩
  intro h
  have h1 := (h dev_enh dev_enh_inverted).1
  revert h1
  decide

/-- C9, amended: after a successful call the same request is successful on any
other prior state, and: on the standard timer high-count and low-count are
the same for both prior states; on the enhanced timer compare-count is the
same, max-count is the same unless the request is the 100% case (period =
pulse, both nonzero), in which max-count keeps its prior value, and the
start-polarity bit is START_WITH_HIGH when the inverted flag is set and keeps
its prior value otherwise. -/
theorem set_cycles_waveform_determined (config : pwm_rtl87x2g_config)
    (channel period_cycles pulse_cycles flags : Nat) (dev1 dev2 : device)
    (hret : (pwm_rtl87x2g_set_cycles config channel period_cycles pulse_cycles flags dev1).1
      = 0) :
    (pwm_rtl87x2g_set_cycles config channel period_cycles pulse_cycles flags dev2).1 = 0 ∧
    (config.is_enhanced = false →
      (pwm_rtl87x2g_set_cycles config channel period_cycles pulse_cycles flags
          dev1).2.regs.high_count
        = (pwm_rtl87x2g_set_cycles config channel period_cycles pulse_cycles flags
          dev2).2.regs.high_count ∧
      (pwm_rtl87x2g_set_cycles config channel period_cycles pulse_cycles flags
          dev1).2.regs.low_count
        = (pwm_rtl87x2g_set_cycles config channel period_cycles pulse_cycles flags
          dev2).2.regs.low_count) ∧
    (config.is_enhanced = true →
      (pwm_rtl87x2g_set_cycles config channel period_cycles pulse_cycles flags
          dev1).2.regs.cc_value
        = (pwm_rtl87x2g_set_cycles config channel period_cycles pulse_cycles flags
          dev2).2.regs.cc_value ∧
      (period_cycles = 0 ∨ pulse_cycles = 0 ∨ period_cycles ≠ pulse_cycles →
        (pwm_rtl87x2g_set_cycles config channel period_cycles pulse_cycles flags
            dev1).2.regs.max_count
          = (pwm_rtl87x2g_set_cycles config channel period_cycles pulse_cycles flags
            dev2).2.regs.max_count) ∧
      (period_cycles ≠ 0 ∧ pulse_cycles ≠ 0 ∧ period_cycles = pulse_cycles →
        (pwm_rtl87x2g_set_cycles config channel period_cycles pulse_cycles flags
            dev1).2.regs.max_count = dev1.regs.max_count) ∧
      (flags &&& PWM_POLARITY_INVERTED ≠ 0 →
        (pwm_rtl87x2g_set_cycles config channel period_cycles pulse_cycles flags
            dev1).2.regs.ENHTIM_CONFIGURE.Enhtimer_PWM_polarity
          = .ENHTIM_PWM_START_WITH_HIGH ∧
        (pwm_rtl87x2g_set_cycles config channel period_cycles pulse_cycles flags
            dev2).2.regs.ENHTIM_CONFIGURE.Enhtimer_PWM_polarity
          = .ENHTIM_PWM_START_WITH_HIGH) ∧
      (flags &&& PWM_POLARITY_INVERTED = 0 →
        (pwm_rtl87x2g_set_cycles config channel period_cycles pulse_cycles flags
            dev1).2.regs.ENHTIM_CONFIGURE.Enhtimer_PWM_polarity
          = dev1.regs.ENHTIM_CONFIGURE.Enhtimer_PWM_polarity)) := by
  have hch := (set_cycles_ret_eq_zero_iff _ _ _ _ _ _).mp hret
  refine ⟨set_cycles_accepts_upto _ _ _ _ _ _ hch, ?_, ?_⟩
  · intro he
    have h1 := set_cycles_standard_counts config channel period_cycles pulse_cycles flags
      dev1 hch he
    have h2 := set_cycles_standard_counts config channel period_cycles pulse_cycles flags
      dev2 hch he
    obtain ⟨h3, h4⟩ := Prod.mk.inj (h1.trans h2.symm)
    exact ⟨h3, h4⟩
  · intro he
    rw [set_cycles_enhanced_eq _ _ _ _ _ _ hch he, set_cycles_enhanced_eq _ _ _ _ _ _ hch he]
    refine ⟨?_, ?_, ?_, ?_, ?_⟩
    · split_ifs <;> rfl
    · intro h
      split_ifs <;> first | rfl | omega
    · rintro ⟨hp, hq, hpq⟩
      have hz : ¬ (period_cycles = 0 ∨ pulse_cycles = 0) := by omega
      rw [if_neg hz, if_pos hpq]
      split_ifs <;> rfl
    · intro hf
      simp only [if_pos hf]
      constructor <;> split_ifs <;> rfl
    · intro hf
      simp only [if_neg (not_not.mpr hf)]
      split_ifs <;> rfl

/-- An inverted general-case request applied to two different prior states of the enhanced sample instance. -/
theorem set_cycles_waveform_determined_witness :
    (pwm_rtl87x2g_set_cycles config_enh 0 1000 250 1 dev_enh).1 = 0 ∧
    (pwm_rtl87x2g_set_cycles config_enh 0 1000 250 1 dev_enh).2.regs.cc_value
      = (pwm_rtl87x2g_set_cycles config_enh 0 1000 250 1 dev_enh_inverted).2.regs.cc_value ∧
    (pwm_rtl87x2g_set_cycles config_enh 0 1000 250 1 dev_enh).2.regs.max_count
      = (pwm_rtl87x2g_set_cycles config_enh 0 1000 250 1
        dev_enh_inverted).2.regs.max_count :=
  ⟨by decide,
   ((set_cycles_waveform_determined config_enh 0 1000 250 1 dev_enh dev_enh_inverted
      (by decide)).2.2 rfl).1,
   ((set_cycles_waveform_determined config_enh 0 1000 250 1 dev_enh dev_enh_inverted
      (by decide)).2.2 rfl).2.1 (by decide)⟩

/-- C10: on an instance whose initialization returned 0, with a prescaler in
{1, 2, 4, 8, 16, 32, 40, 64}, `pwm_rtl87x2g_get_cycles_per_sec` returns 0 for
every channel and stores 40000000 / prescaler (natural-number division, which
truncates): 1000000 for prescaler 40, 625000 for 64 and 1250000 for 32. -/
theorem get_cycles_per_sec_recognized (config : pwm_rtl87x2g_config) (channel : Nat)
    (pinctrl_ret : Int) (dev0 : device)
    (hp : config.prescaler ∈ [1, 2, 4, 8, 16, 32, 40, 64])
    (_hinit : (pwm_rtl87x2g_init config pinctrl_ret dev0).1 = 0) :
    ∃ cycles : Nat,
      pwm_rtl87x2g_get_cycles_per_sec config channel
          (pwm_rtl87x2g_init config pinctrl_ret dev0).2
        = some (0, cycles, (pwm_rtl87x2g_init config pinctrl_ret dev0).2) ∧
      cycles = 40000000 / config.prescaler ∧
      (config.prescaler = 40 → cycles = 1000000) ∧
      (config.prescaler = 64 → cycles = 625000) ∧
      (config.prescaler = 32 → cycles = 1250000) := by
  have hne : config.prescaler ≠ 0 := by
    intro h0
    rw [h0] at hp
    simp at hp
  refine ⟨40000000 / config.prescaler, ?_, rfl, ?_, ?_, ?_⟩
  · unfold pwm_rtl87x2g_get_cycles_per_sec
    rw [if_neg hne, init_tim_clk]
  · intro h
    rw [h]
  · intro h
    rw [h]
  · intro h
    rw [h]

/-- Prescaler 40 on a standard instance gives 1000000 ticks per second. -/
theorem get_cycles_per_sec_recognized_witness :
    (pwm_rtl87x2g_init config_std40 0 dev_reset).1 = 0 ∧
    ∃ cycles : Nat,
      pwm_rtl87x2g_get_cycles_per_sec config_std40 0
          (pwm_rtl87x2g_init config_std40 0 dev_reset).2
        = some (0, cycles, (pwm_rtl87x2g_init config_std40 0 dev_reset).2) ∧
      cycles = 40000000 / config_std40.prescaler ∧
      (config_std40.prescaler = 40 → cycles = 1000000) ∧
      (config_std40.prescaler = 64 → cycles = 625000) ∧
      (config_std40.prescaler = 32 → cycles = 1250000) :=
  ⟨by decide,
   get_cycles_per_sec_recognized config_std40 0 0 dev_reset (by decide) (by decide)⟩

/-! ## Further facts on initialization and the frequency query -/

instance (dev : device) : Decidable (Running dev) := by
  unfold Running
  infer_instance

/-- With a nonzero prescaler the query returns 0, stores `tim_clk / prescaler`
and leaves the device as it was. -/
theorem get_cycles_per_sec_of_ne_zero (config : pwm_rtl87x2g_config) (channel : Nat)
    (dev : device) (hp : config.prescaler ≠ 0) :
    pwm_rtl87x2g_get_cycles_per_sec config channel dev
      = some (0, dev.data.tim_clk / config.prescaler, dev) := by
  unfold pwm_rtl87x2g_get_cycles_per_sec
  rw [if_neg hp]

/-- Whenever the query has a result, the device in it is the one it was called
on. -/
theorem get_cycles_per_sec_device (config : pwm_rtl87x2g_config) (channel : Nat)
    (dev : device) (r : Int × Nat × device)
    (h : pwm_rtl87x2g_get_cycles_per_sec config channel dev = some r) : r.2.2 = dev := by
  unfold pwm_rtl87x2g_get_cycles_per_sec at h
  split_ifs at h
  cases h
  rfl

/-- Initialization when `pinctrl_apply_state` fails. -/
theorem init_of_neg (config : pwm_rtl87x2g_config) (pinctrl_ret : Int) (dev : device)
    (hret : pinctrl_ret < 0) :
    pwm_rtl87x2g_init config pinctrl_ret dev
      = (pinctrl_ret, { dev with data := { dev.data with tim_clk := 40000000 } }) := by
  unfold pwm_rtl87x2g_init
  simp only [if_pos hret]

/-- Initialization of an enhanced timer when `pinctrl_apply_state` succeeds. -/
theorem init_enhanced_eq (config : pwm_rtl87x2g_config) (pinctrl_ret : Int) (dev : device)
    (hret : 0 ≤ pinctrl_ret) (he : config.is_enhanced = true) :
    pwm_rtl87x2g_init config pinctrl_ret dev
      = (0, ENHTIM_Cmd .ENABLE (ENHTIM_Init
          { ENHTIM_ClockSource := .CK_40M_TIMER
            ENHTIM_ClockDiv_En := .ENABLE
            ENHTIM_ClockDiv := pwm_rtl87x2g_init_clock_div config.prescaler
            ENHTIM_Mode := .ENHTIM_MODE_PWM_MANUAL
            ENHTIM_PWMOutputEn := .ENABLE
            ENHTIM_PWMStartPolarity := .ENHTIM_PWM_START_WITH_LOW
            ENHTIM_MaxCount := UINT32_MAX
            ENHTIM_CCValue := 0 }
          { dev with data := { dev.data with tim_clk := 40000000 } })) := by
  unfold pwm_rtl87x2g_init
  simp only [if_neg (not_lt.mpr hret), he, if_true]

/-- Initialization of a standard timer when `pinctrl_apply_state` succeeds. -/
theorem init_standard_eq (config : pwm_rtl87x2g_config) (pinctrl_ret : Int) (dev : device)
    (hret : 0 ≤ pinctrl_ret) (he : config.is_enhanced = false) :
    pwm_rtl87x2g_init config pinctrl_ret dev
      = (0, TIM_Cmd .ENABLE (TIM_TimeBaseInit
          { TIM_ClockSrc := .CK_40M_TIMER
            TIM_SOURCE_DIV_En := .ENABLE
            TIM_SOURCE_DIV := pwm_rtl87x2g_init_clock_div config.prescaler
            TIM_Mode := .TIM_Mode_UserDefine
            TIM_PWM_En := .ENABLE
            TIM_PWM_High_Count := 0
            TIM_PWM_Low_Count := UINT32_MAX }
          { dev with data := { dev.data with tim_clk := 40000000 } })) := by
  unfold pwm_rtl87x2g_init
  simp only [if_neg (not_lt.mpr hret), he]
  rfl

/-- A prescaler outside the recognized set selects `CLOCK_DIV_1`. -/
theorem init_clock_div_default (p : Nat) (hp : p ∉ [1, 2, 4, 8, 16, 32, 40, 64]) :
    pwm_rtl87x2g_init_clock_div p = .CLOCK_DIV_1 := by
  unfold pwm_rtl87x2g_init_clock_div
  split <;> simp_all

/-! ## Claims on initialization and the frequency query -/

/-- C11: the claim asks that the query is defined and returns success on every
initialized instance, prescaler 0 included.  With prescaler 0 initialization
succeeds, selecting `CLOCK_DIV_1` by the default branch, and the query then
divides `tim_clk` by zero: it has no result. -/
theorem get_cycles_per_sec_zero_prescaler_undefined :
    config_std0.prescaler = 0 ∧
    (pwm_rtl87x2g_init config_std0 0 dev_reset).1 = 0 ∧
    (pwm_rtl87x2g_init config_std0 0 dev_reset).2.regs.clock_div = .CLOCK_DIV_1 ∧
    (pwm_rtl87x2g_init config_std0 0 dev_reset).2.data.tim_clk = 40000000 ∧
    pwm_rtl87x2g_get_cycles_per_sec config_std0 0
      (pwm_rtl87x2g_init config_std0 0 dev_reset).2 = none := by
  decide

/-- C12: the `switch` of `pwm_rtl87x2g_init` maps 1, 2, 4, 8, 16, 32, 40, 64 to
`CLOCK_DIV_1`, `_2`, `_4`, `_8`, `_16`, `_32`, `_40`, `_64`, which are pairwise
distinct, and every other value to `CLOCK_DIV_1`; when `pinctrl_apply_state`
succeeds the selected code is the clock-division field of the init structure
passed to `ENHTIM_Init` resp. `TIM_TimeBaseInit`, and ends up in the
clock-division register field. -/
theorem init_clock_div_selection (config : pwm_rtl87x2g_config) (pinctrl_ret : Int)
    (dev : device) (hret : 0 ≤ pinctrl_ret) :
    [1, 2, 4, 8, 16, 32, 40, 64].map pwm_rtl87x2g_init_clock_div
      = [.CLOCK_DIV_1, .CLOCK_DIV_2, .CLOCK_DIV_4, .CLOCK_DIV_8, .CLOCK_DIV_16,
         .CLOCK_DIV_32, .CLOCK_DIV_40, .CLOCK_DIV_64] ∧
    ([1, 2, 4, 8, 16, 32, 40, 64].map pwm_rtl87x2g_init_clock_div).Nodup ∧
    (∀ p : Nat, p ∉ [1, 2, 4, 8, 16, 32, 40, 64] →
      pwm_rtl87x2g_init_clock_div p = .CLOCK_DIV_1) ∧
    (config.is_enhanced = true →
      ∃ s : ENHTIM_InitTypeDef,
        init_ops config pinctrl_ret dev = [.ENHTIM_Init s, .ENHTIM_Cmd .ENABLE] ∧
        s.ENHTIM_ClockDiv = pwm_rtl87x2g_init_clock_div config.prescaler) ∧
    (config.is_enhanced = false →
      ∃ s : TIM_TimeBaseInitTypeDef,
        init_ops config pinctrl_ret dev = [.TIM_TimeBaseInit s, .TIM_Cmd .ENABLE] ∧
        s.TIM_SOURCE_DIV = pwm_rtl87x2g_init_clock_div config.prescaler) ∧
    (pwm_rtl87x2g_init config pinctrl_ret dev).2.regs.clock_div
      = pwm_rtl87x2g_init_clock_div config.prescaler := by
  refine ⟨by decide, by decide, init_clock_div_default, ?_, ?_, ?_⟩
  · intro he
    unfold init_ops
    rw [init_enhanced_eq config pinctrl_ret dev hret he]
    refine ⟨{ ENHTIM_ClockSource := .CK_40M_TIMER
              ENHTIM_ClockDiv_En := .ENABLE
              ENHTIM_ClockDiv := pwm_rtl87x2g_init_clock_div config.prescaler
              ENHTIM_Mode := .ENHTIM_MODE_PWM_MANUAL
              ENHTIM_PWMOutputEn := .ENABLE
              ENHTIM_PWMStartPolarity := .ENHTIM_PWM_START_WITH_LOW
              ENHTIM_MaxCount := UINT32_MAX
              ENHTIM_CCValue := 0 }, ?_, rfl⟩
    simp [ENHTIM_Cmd, ENHTIM_Init]
  · intro he
    unfold init_ops
    rw [init_standard_eq config pinctrl_ret dev hret he]
    refine ⟨{ TIM_ClockSrc := .CK_40M_TIMER
              TIM_SOURCE_DIV_En := .ENABLE
              TIM_SOURCE_DIV := pwm_rtl87x2g_init_clock_div config.prescaler
              TIM_Mode := .TIM_Mode_UserDefine
              TIM_PWM_En := .ENABLE
              TIM_PWM_High_Count := 0
              TIM_PWM_Low_Count := UINT32_MAX }, ?_, rfl⟩
    simp [TIM_Cmd, TIM_TimeBaseInit]
  · cases he : config.is_enhanced
    · rw [init_standard_eq config pinctrl_ret dev hret he]
      rfl
    · rw [init_enhanced_eq config pinctrl_ret dev hret he]
      rfl

/-- The unrecognized prescaler 3 on a standard instance selects `CLOCK_DIV_1`,
which is what `TIM_TimeBaseInit` receives. -/
theorem init_clock_div_selection_witness :
    (0 : Int) ≤ 0 ∧
    pwm_rtl87x2g_init_clock_div 3 = .CLOCK_DIV_1 ∧
    (∃ s : TIM_TimeBaseInitTypeDef,
        init_ops config_std3 0 dev_reset = [.TIM_TimeBaseInit s, .TIM_Cmd .ENABLE] ∧
        s.TIM_SOURCE_DIV = pwm_rtl87x2g_init_clock_div config_std3.prescaler) ∧
    (pwm_rtl87x2g_init config_std3 0 dev_reset).2.regs.clock_div
      = pwm_rtl87x2g_init_clock_div config_std3.prescaler :=
  ⟨by decide,
   (init_clock_div_selection config_std3 0 dev_reset (by decide)).2.2.1 3 (by decide),
   (init_clock_div_selection config_std3 0 dev_reset (by decide)).2.2.2.2.1 rfl,
   (init_clock_div_selection config_std3 0 dev_reset (by decide)).2.2.2.2.2⟩

/-- C13: `pwm_rtl87x2g_init` returns a nonzero (indeed negative) value exactly
when `pinctrl_apply_state` returns a negative code; it then returns that very
code, issues no hardware operation and leaves every timer register, the enable
bit included, as it was; otherwise it returns 0. -/
theorem init_fails_iff_pinctrl_fails (config : pwm_rtl87x2g_config) (pinctrl_ret : Int)
    (dev : device) :
    ((pwm_rtl87x2g_init config pinctrl_ret dev).1 ≠ 0 ↔ pinctrl_ret < 0) ∧
    ((pwm_rtl87x2g_init config pinctrl_ret dev).1 < 0 ↔ pinctrl_ret < 0) ∧
    (pinctrl_ret < 0 →
      (pwm_rtl87x2g_init config pinctrl_ret dev).1 = pinctrl_ret ∧
      init_ops config pinctrl_ret dev = [] ∧
      (pwm_rtl87x2g_init config pinctrl_ret dev).2.trace = dev.trace ∧
      (pwm_rtl87x2g_init config pinctrl_ret dev).2.regs = dev.regs) ∧
    (0 ≤ pinctrl_ret → (pwm_rtl87x2g_init config pinctrl_ret dev).1 = 0) := by
  have hok : 0 ≤ pinctrl_ret → (pwm_rtl87x2g_init config pinctrl_ret dev).1 = 0 := by
    intro hret
    cases he : config.is_enhanced
    · rw [init_standard_eq config pinctrl_ret dev hret he]
    · rw [init_enhanced_eq config pinctrl_ret dev hret he]
  have hfail : pinctrl_ret < 0 →
      (pwm_rtl87x2g_init config pinctrl_ret dev).1 = pinctrl_ret := by
    intro hret
    rw [init_of_neg config pinctrl_ret dev hret]
  refine ⟨?_, ?_, ?_, hok⟩
  · constructor
    · intro h
      by_contra hc
      exact h (hok (not_lt.mp hc))
    · intro hret
      rw [hfail hret]
      omega
  · constructor
    · intro h
      by_contra hc
      rw [hok (not_lt.mp hc)] at h
      exact absurd h (lt_irrefl 0)
    · intro hret
      rw [hfail hret]
      exact hret
  · intro hret
    unfold init_ops
    rw [init_of_neg config pinctrl_ret dev hret]
    exact ⟨rfl, by simp, rfl, rfl⟩

/-- A pin-mux failure with code -5 on the enhanced sample configuration. -/
theorem init_fails_iff_pinctrl_fails_witness :
    (-5 : Int) < 0 ∧
    (pwm_rtl87x2g_init config_enh (-5) dev_reset).1 = -5 ∧
    init_ops config_enh (-5) dev_reset = [] ∧
    (pwm_rtl87x2g_init config_enh (-5) dev_reset).2.trace = dev_reset.trace ∧
    (pwm_rtl87x2g_init config_enh (-5) dev_reset).2.regs = dev_reset.regs :=
  ⟨by decide, (init_fails_iff_pinctrl_fails config_enh (-5) dev_reset).2.2.1 (by decide)⟩

/-- C14: when `pinctrl_apply_state` succeeds, `pwm_rtl87x2g_init` returns 0,
records `tim_clk` = 40000000 and leaves the timer enabled with the 0% baseline:
on the enhanced timer the 40 MHz clock source, clock division enabled with the
selected code, manual PWM mode, PWM output enabled, start polarity low,
max-count 0xFFFFFFFF and compare-count 0; on the standard timer the 40 MHz
clock source, clock division enabled with the selected code, user-defined mode,
PWM enabled, high-count 0 and low-count 0xFFFFFFFF.  The operations issued are
the init call followed by the enable command. -/
theorem init_commits_baseline (config : pwm_rtl87x2g_config) (pinctrl_ret : Int)
    (dev : device) (hret : 0 ≤ pinctrl_ret) :
    (pwm_rtl87x2g_init config pinctrl_ret dev).1 = 0 ∧
    (pwm_rtl87x2g_init config pinctrl_ret dev).2.data.tim_clk = 40000000 ∧
    (pwm_rtl87x2g_init config pinctrl_ret dev).2.regs.enable = .ENABLE ∧
    (pwm_rtl87x2g_init config pinctrl_ret dev).2.regs.clock_src = .CK_40M_TIMER ∧
    (pwm_rtl87x2g_init config pinctrl_ret dev).2.regs.clock_div_en = .ENABLE ∧
    (pwm_rtl87x2g_init config pinctrl_ret dev).2.regs.clock_div
      = pwm_rtl87x2g_init_clock_div config.prescaler ∧
    (pwm_rtl87x2g_init config pinctrl_ret dev).2.regs.pwm_en = .ENABLE ∧
    (config.is_enhanced = true →
      init_ops config pinctrl_ret dev =
        [.ENHTIM_Init
          { ENHTIM_ClockSource := .CK_40M_TIMER
            ENHTIM_ClockDiv_En := .ENABLE
            ENHTIM_ClockDiv := pwm_rtl87x2g_init_clock_div config.prescaler
            ENHTIM_Mode := .ENHTIM_MODE_PWM_MANUAL
            ENHTIM_PWMOutputEn := .ENABLE
            ENHTIM_PWMStartPolarity := .ENHTIM_PWM_START_WITH_LOW
            ENHTIM_MaxCount := 0xFFFFFFFF
            ENHTIM_CCValue := 0 },
         .ENHTIM_Cmd .ENABLE] ∧
      (pwm_rtl87x2g_init config pinctrl_ret dev).2.regs.mode = .ENHTIM_MODE_PWM_MANUAL ∧
      (pwm_rtl87x2g_init config pinctrl_ret
          dev).2.regs.ENHTIM_CONFIGURE.Enhtimer_PWM_polarity
        = .ENHTIM_PWM_START_WITH_LOW ∧
      (pwm_rtl87x2g_init config pinctrl_ret dev).2.regs.max_count = 0xFFFFFFFF ∧
      (pwm_rtl87x2g_init config pinctrl_ret dev).2.regs.cc_value = 0) ∧
    (config.is_enhanced = false →
      init_ops config pinctrl_ret dev =
        [.TIM_TimeBaseInit
          { TIM_ClockSrc := .CK_40M_TIMER
            TIM_SOURCE_DIV_En := .ENABLE
            TIM_SOURCE_DIV := pwm_rtl87x2g_init_clock_div config.prescaler
            TIM_Mode := .TIM_Mode_UserDefine
            TIM_PWM_En := .ENABLE
            TIM_PWM_High_Count := 0
            TIM_PWM_Low_Count := 0xFFFFFFFF },
         .TIM_Cmd .ENABLE] ∧
      (pwm_rtl87x2g_init config pinctrl_ret dev).2.regs.mode = .TIM_Mode_UserDefine ∧
      (pwm_rtl87x2g_init config pinctrl_ret dev).2.regs.high_count = 0 ∧
      (pwm_rtl87x2g_init config pinctrl_ret dev).2.regs.low_count = 0xFFFFFFFF) := by
  cases he : config.is_enhanced
  · unfold init_ops
    rw [init_standard_eq config pinctrl_ret dev hret he]
    refine ⟨rfl, rfl, rfl, rfl, rfl, rfl, rfl, ?_, ?_⟩
    · intro h
      cases h
    · intro _
      refine ⟨?_, rfl, rfl, rfl⟩
      simp [TIM_Cmd, TIM_TimeBaseInit, UINT32_MAX]
  · unfold init_ops
    rw [init_enhanced_eq config pinctrl_ret dev hret he]
    refine ⟨rfl, rfl, rfl, rfl, rfl, rfl, rfl, ?_, ?_⟩
    · intro _
      refine ⟨?_, rfl, rfl, rfl, rfl⟩
      simp [ENHTIM_Cmd, ENHTIM_Init, UINT32_MAX]
    · intro h
      cases h

/-- Initialization of the enhanced sample configuration from the reset state. -/
theorem init_commits_baseline_witness :
    (0 : Int) ≤ 0 ∧
    (pwm_rtl87x2g_init config_enh 0 dev_reset).1 = 0 ∧
    (pwm_rtl87x2g_init config_enh 0 dev_reset).2.data.tim_clk = 40000000 ∧
    (pwm_rtl87x2g_init config_enh 0 dev_reset).2.regs.enable = .ENABLE ∧
    (pwm_rtl87x2g_init config_enh 0 dev_reset).2.regs.max_count = 0xFFFFFFFF ∧
    (pwm_rtl87x2g_init config_enh 0 dev_reset).2.regs.cc_value = 0 :=
  ⟨by decide,
   (init_commits_baseline config_enh 0 dev_reset (by decide)).1,
   (init_commits_baseline config_enh 0 dev_reset (by decide)).2.1,
   (init_commits_baseline config_enh 0 dev_reset (by decide)).2.2.1,
   ((init_commits_baseline config_enh 0 dev_reset (by decide)).2.2.2.2.2.2.2.1 rfl).2.2.2.1,
   ((init_commits_baseline config_enh 0 dev_reset (by decide)).2.2.2.2.2.2.2.1 rfl).2.2.2.2⟩

/-! ## Claims on sequences of calls and on wrap-around -/

/-- C15: on a valid channel `pwm_rtl87x2g_set_cycles` returns 0 for all cycle
counts and flags; for any channel the return value is 0 or `-EINVAL`, the
latter only for a channel index above the channel count; and the 32-bit
subtraction is defined for all operands, so that for 32-bit counts the values
left in the count registers are 32-bit values (max-count of the enhanced timer
may instead keep its prior value). -/
theorem set_cycles_only_error_is_channel (config : pwm_rtl87x2g_config)
    (channel period_cycles pulse_cycles flags : Nat) (dev : device)
    (hch : channel < config.channels) :
    (pwm_rtl87x2g_set_cycles config channel period_cycles pulse_cycles flags dev).1 = 0 ∧
    (∀ any_channel : Nat,
      (pwm_rtl87x2g_set_cycles config any_channel period_cycles pulse_cycles flags dev).1
          = 0 ∨
      ((pwm_rtl87x2g_set_cycles config any_channel period_cycles pulse_cycles flags dev).1
          = -EINVAL ∧ config.channels < any_channel)) ∧
    sub32 period_cycles pulse_cycles < 2 ^ 32 ∧
    (period_cycles < 2 ^ 32 → pulse_cycles < 2 ^ 32 →
      (config.is_enhanced = false →
        (pwm_rtl87x2g_set_cycles config channel period_cycles pulse_cycles flags
          dev).2.regs.high_count < 2 ^ 32 ∧
        (pwm_rtl87x2g_set_cycles config channel period_cycles pulse_cycles flags
          dev).2.regs.low_count < 2 ^ 32) ∧
      (config.is_enhanced = true →
        (pwm_rtl87x2g_set_cycles config channel period_cycles pulse_cycles flags
          dev).2.regs.cc_value < 2 ^ 32 ∧
        ((pwm_rtl87x2g_set_cycles config channel period_cycles pulse_cycles flags
            dev).2.regs.max_count < 2 ^ 32 ∨
          (pwm_rtl87x2g_set_cycles config channel period_cycles pulse_cycles flags
            dev).2.regs.max_count = dev.regs.max_count))) := by
  have hle := Nat.le_of_lt hch
  have hsub : sub32 period_cycles pulse_cycles < 2 ^ 32 := by
    unfold sub32
    omega
  refine ⟨set_cycles_accepts_upto _ _ _ _ _ _ hle, ?_, hsub, ?_⟩
  · intro any_channel
    by_cases h : any_channel ≤ config.channels
    · exact Or.inl (set_cycles_accepts_upto _ _ _ _ _ _ h)
    · right
      rw [set_cycles_rejects_above _ _ _ _ _ _ (Nat.not_le.mp h)]
      exact ⟨rfl, Nat.not_le.mp h⟩
  · intro hp hq
    refine ⟨?_, ?_⟩
    · intro he
      have hc := set_cycles_standard_counts config channel period_cycles pulse_cycles flags
        dev hle he
      split_ifs at hc <;>
        · obtain ⟨h1, h2⟩ := Prod.mk.inj hc
          rw [h1, h2]
          first
            | omega
            | (simp only [UINT32_MAX]; omega)
    · intro he
      rw [set_cycles_enhanced_eq _ _ _ _ _ _ hle he]
      split_ifs <;>
        refine ⟨?_, ?_⟩ <;>
        first
          | exact Or.inr rfl
          | (left
             simp only [ENHTIM_CONFIGURE_store, ENHTIM_SetMaxCount, ENHTIM_SetCCValue,
               ENHTIM_Cmd, issue_regs, HwOp.apply, UINT32_MAX]
             omega)
          | (simp only [ENHTIM_CONFIGURE_store, ENHTIM_SetMaxCount, ENHTIM_SetCCValue,
               ENHTIM_Cmd, issue_regs, HwOp.apply, UINT32_MAX]
             omega)

/-- The largest 32-bit counts on the standard sample instance. -/
theorem set_cycles_only_error_is_channel_witness :
    (0 : Nat) < config_std.channels ∧
    (pwm_rtl87x2g_set_cycles config_std 0 1 4294967295 65535 dev_std).1 = 0 ∧
    sub32 1 4294967295 < 2 ^ 32 :=
  ⟨by decide,
   (set_cycles_only_error_is_channel config_std 0 1 4294967295 65535 dev_std (by decide)).1,
   (set_cycles_only_error_is_channel config_std 0 1 4294967295 65535 dev_std
      (by decide)).2.2.1⟩

/-- A successful initialization went through with a non-negative pin-mux
result. -/
theorem init_ret_zero_nonneg (config : pwm_rtl87x2g_config) (pinctrl_ret : Int)
    (dev : device) (h : (pwm_rtl87x2g_init config pinctrl_ret dev).1 = 0) :
    0 ≤ pinctrl_ret := by
  by_contra hc
  have hneg : pinctrl_ret < 0 := not_le.mp hc
  rw [init_of_neg config pinctrl_ret dev hneg] at h
  exact absurd h (ne_of_lt hneg)

/-- After a successful initialization the timer is running. -/
theorem init_running (config : pwm_rtl87x2g_config) (pinctrl_ret : Int) (dev : device)
    (h : (pwm_rtl87x2g_init config pinctrl_ret dev).1 = 0) :
    Running (pwm_rtl87x2g_init config pinctrl_ret dev).2 := by
  have hret := init_ret_zero_nonneg config pinctrl_ret dev h
  cases he : config.is_enhanced
  · rw [init_standard_eq config pinctrl_ret dev hret he]
    simp [Running, TIM_Cmd, HwOp.apply, HwOp.isCmd]
  · rw [init_enhanced_eq config pinctrl_ret dev hret he]
    simp [Running, ENHTIM_Cmd, HwOp.apply, HwOp.isCmd]

/-- After an accepted `pwm_rtl87x2g_set_cycles` call the timer is running. -/
theorem set_cycles_running (config : pwm_rtl87x2g_config)
    (channel period_cycles pulse_cycles flags : Nat) (dev : device)
    (hch : channel ≤ config.channels) :
    Running (pwm_rtl87x2g_set_cycles config channel period_cycles pulse_cycles flags dev).2 := by
  cases he : config.is_enhanced
  · rw [set_cycles_standard_eq _ _ _ _ _ _ hch he]
    simp [Running, TIM_Cmd, HwOp.apply, HwOp.isCmd]
  · rw [set_cycles_enhanced_eq _ _ _ _ _ _ hch he]
    simp [Running, ENHTIM_Cmd, HwOp.apply, HwOp.isCmd]

/-- Any `pwm_rtl87x2g_set_cycles` call, accepted or rejected, keeps the timer
running. -/
theorem set_cycles_keeps_running (config : pwm_rtl87x2g_config)
    (channel period_cycles pulse_cycles flags : Nat) (dev : device) (h : Running dev) :
    Running (pwm_rtl87x2g_set_cycles config channel period_cycles pulse_cycles flags dev).2 := by
  by_cases hch : channel ≤ config.channels
  · exact set_cycles_running _ _ _ _ _ _ hch
  · rw [set_cycles_rejects_above _ _ _ _ _ _ (Nat.not_le.mp hch)]
    exact h

/-- One API call keeps the timer running. -/
theorem step_keeps_running (config : pwm_rtl87x2g_config) (c : ApiCall) (dev dev1 : device)
    (h : Running dev) (hs : c.step config dev = some dev1) : Running dev1 := by
  cases c with
  | set_cycles channel period_cycles pulse_cycles flags =>
    simp only [ApiCall.step, Option.some.injEq] at hs
    rw [← hs]
    exact set_cycles_keeps_running _ _ _ _ _ _ h
  | get_cycles_per_sec channel =>
    simp only [ApiCall.step, Option.map_eq_some'] at hs
    obtain ⟨r, hr, hd⟩ := hs
    rw [← hd, get_cycles_per_sec_device config channel dev r hr]
    exact h

/-- A sequence of API calls keeps the timer running. -/
theorem run_calls_keeps_running (config : pwm_rtl87x2g_config) (calls : List ApiCall) :
    ∀ dev dev1 : device, Running dev → run_calls config calls dev = some dev1 →
      Running dev1 := by
  induction calls with
  | nil =>
    intro dev dev1 h hr
    simp only [run_calls, Option.some.injEq] at hr
    rw [← hr]
    exact h
  | cons c cs ih =>
    intro dev dev1 h hr
    simp only [run_calls, Option.bind_eq_some] at hr
    obtain ⟨d, hd, hrest⟩ := hr
    exact ih d dev1 (step_keeps_running config c dev d h hd) hrest

/-- With a nonzero prescaler every sequence of API calls runs to the end. -/
theorem run_calls_defined (config : pwm_rtl87x2g_config) (hp : config.prescaler ≠ 0)
    (calls : List ApiCall) : ∀ dev : device, ∃ dev1, run_calls config calls dev = some dev1 := by
  induction calls with
  | nil =>
    intro dev
    exact ⟨dev, rfl⟩
  | cons c cs ih =>
    intro dev
    cases c with
    | set_cycles channel period_cycles pulse_cycles flags =>
      obtain ⟨d, hd⟩ := ih
        (pwm_rtl87x2g_set_cycles config channel period_cycles pulse_cycles flags dev).2
      exact ⟨d, by simp only [run_calls, ApiCall.step, Option.some_bind, hd]⟩
    | get_cycles_per_sec channel =>
      obtain ⟨d, hd⟩ := ih dev
      refine ⟨d, ?_⟩
      simp only [run_calls, ApiCall.step, get_cycles_per_sec_of_ne_zero config channel dev hp,
        Option.map_some', Option.some_bind, hd]

/-- C16: after a successful `pwm_rtl87x2g_init` the timer is running (enable
bit set, last operation issued the enable command); every successful
`pwm_rtl87x2g_set_cycles` call leaves it running; a rejected call and
`pwm_rtl87x2g_get_cycles_per_sec` return the device as it was; hence the timer
is running in every state reached from the initialized one by a sequence of
these calls, and with a nonzero prescaler every such sequence reaches a
state. -/
theorem running_never_left (config : pwm_rtl87x2g_config) (pinctrl_ret : Int)
    (dev0 : device) (hinit : (pwm_rtl87x2g_init config pinctrl_ret dev0).1 = 0) :
    Running (pwm_rtl87x2g_init config pinctrl_ret dev0).2 ∧
    (∀ (channel period_cycles pulse_cycles flags : Nat) (dev : device),
      (pwm_rtl87x2g_set_cycles config channel period_cycles pulse_cycles flags dev).1 = 0 →
      Running
        (pwm_rtl87x2g_set_cycles config channel period_cycles pulse_cycles flags dev).2) ∧
    (∀ (channel period_cycles pulse_cycles flags : Nat) (dev : device),
      (pwm_rtl87x2g_set_cycles config channel period_cycles pulse_cycles flags dev).1 ≠ 0 →
      (pwm_rtl87x2g_set_cycles config channel period_cycles pulse_cycles flags dev).2
        = dev) ∧
    (∀ (channel : Nat) (dev : device) (r : Int × Nat × device),
      pwm_rtl87x2g_get_cycles_per_sec config channel dev = some r → r.2.2 = dev) ∧
    (∀ (calls : List ApiCall) (dev : device),
      run_calls config calls (pwm_rtl87x2g_init config pinctrl_ret dev0).2 = some dev →
      Running dev) ∧
    (config.prescaler ≠ 0 → ∀ calls : List ApiCall,
      ∃ dev, run_calls config calls (pwm_rtl87x2g_init config pinctrl_ret dev0).2
        = some dev) := by
  have h0 := init_running config pinctrl_ret dev0 hinit
  refine ⟨h0, ?_, ?_, ?_, ?_, ?_⟩
  · intro channel period_cycles pulse_cycles flags dev hret
    exact set_cycles_running _ _ _ _ _ _ ((set_cycles_ret_eq_zero_iff _ _ _ _ _ _).mp hret)
  · intro channel period_cycles pulse_cycles flags dev hret
    have hch : config.channels < channel := by
      by_contra hc
      exact hret (set_cycles_accepts_upto _ _ _ _ _ _ (Nat.not_lt.mp hc))
    rw [set_cycles_rejects_above _ _ _ _ _ _ hch]
  · intro channel dev r hr
    exact get_cycles_per_sec_device config channel dev r hr
  · intro calls dev hr
    exact run_calls_keeps_running config calls _ dev h0 hr
  · intro hp calls
    exact run_calls_defined config hp calls _

/-- The enhanced sample instance is running after a zero-duty request, a
rejected request, a frequency query and a full-duty request. -/
theorem running_never_left_witness :
    (pwm_rtl87x2g_init config_enh 0 dev_reset).1 = 0 ∧
    Running (pwm_rtl87x2g_init config_enh 0 dev_reset).2 ∧
    (∀ dev : device,
      run_calls config_enh
          [.set_cycles 0 0 0 0, .set_cycles 7 1000 250 0, .get_cycles_per_sec 0,
           .set_cycles 0 500 500 1]
          (pwm_rtl87x2g_init config_enh 0 dev_reset).2 = some dev →
      Running dev) ∧
    ∃ dev,
      run_calls config_enh
          [.set_cycles 0 0 0 0, .set_cycles 7 1000 250 0, .get_cycles_per_sec 0,
           .set_cycles 0 500 500 1]
          (pwm_rtl87x2g_init config_enh 0 dev_reset).2 = some dev :=
  ⟨by decide,
   (running_never_left config_enh 0 dev_reset (by decide)).1,
   (running_never_left config_enh 0 dev_reset (by decide)).2.2.2.2.1 _,
   (running_never_left config_enh 0 dev_reset (by decide)).2.2.2.2.2 (by decide) _⟩

/-- A start-polarity bit that is START_WITH_HIGH stays so over any
`pwm_rtl87x2g_set_cycles` call. -/
theorem set_cycles_keeps_polarity_high (config : pwm_rtl87x2g_config)
    (channel period_cycles pulse_cycles flags : Nat) (dev : device)
    (h : dev.regs.ENHTIM_CONFIGURE.Enhtimer_PWM_polarity = .ENHTIM_PWM_START_WITH_HIGH) :
    (pwm_rtl87x2g_set_cycles config channel period_cycles pulse_cycles flags
        dev).2.regs.ENHTIM_CONFIGURE.Enhtimer_PWM_polarity
      = .ENHTIM_PWM_START_WITH_HIGH := by
  by_cases hch : channel ≤ config.channels
  · cases he : config.is_enhanced
    · rw [set_cycles_standard_eq _ _ _ _ _ _ hch he]
      split_ifs <;> exact h
    · rw [set_cycles_enhanced_eq _ _ _ _ _ _ hch he]
      split_ifs <;> first | rfl | exact h
  · rw [set_cycles_rejects_above _ _ _ _ _ _ (Nat.not_le.mp hch)]
    exact h

/-- A start-polarity bit that is START_WITH_HIGH stays so over any sequence of
`pwm_rtl87x2g_set_cycles` calls. -/
theorem set_cycles_seq_keeps_polarity_high (config : pwm_rtl87x2g_config)
    (reqs : List set_cycles_args) :
    ∀ dev : device,
      dev.regs.ENHTIM_CONFIGURE.Enhtimer_PWM_polarity = .ENHTIM_PWM_START_WITH_HIGH →
      (set_cycles_seq config reqs dev).regs.ENHTIM_CONFIGURE.Enhtimer_PWM_polarity
        = .ENHTIM_PWM_START_WITH_HIGH := by
  induction reqs with
  | nil =>
    intro dev h
    exact h
  | cons a rest ih =>
    intro dev h
    exact ih _ (set_cycles_keeps_polarity_high config a.channel a.period_cycles
      a.pulse_cycles a.flags dev h)

/-- C17: on the enhanced timer a successful `pwm_rtl87x2g_set_cycles` call with
the inverted flag leaves the start-polarity bit START_WITH_HIGH; every store to
the configure register that any call performs carries START_WITH_HIGH; and
after such a call the bit is START_WITH_HIGH after every further sequence of
`pwm_rtl87x2g_set_cycles` calls, whatever their flags. -/
theorem set_cycles_polarity_sticky (config : pwm_rtl87x2g_config)
    (channel period_cycles pulse_cycles flags : Nat) (dev : device)
    (he : config.is_enhanced = true)
    (hret : (pwm_rtl87x2g_set_cycles config channel period_cycles pulse_cycles flags dev).1
      = 0)
    (hinv : flags &&& PWM_POLARITY_INVERTED ≠ 0) :
    (pwm_rtl87x2g_set_cycles config channel period_cycles pulse_cycles flags
        dev).2.regs.ENHTIM_CONFIGURE.Enhtimer_PWM_polarity
      = .ENHTIM_PWM_START_WITH_HIGH ∧
    (∀ (channel1 period1 pulse1 flags1 : Nat) (dev1 : device) (d32 : ENHTIM_CONFIGURE_TypeDef),
      HwOp.ENHTIM_CONFIGURE_store d32 ∈ set_cycles_ops config channel1 period1 pulse1 flags1 dev1 →
      d32.Enhtimer_PWM_polarity = .ENHTIM_PWM_START_WITH_HIGH) ∧
    (∀ reqs : List set_cycles_args,
      (set_cycles_seq config reqs
          (pwm_rtl87x2g_set_cycles config channel period_cycles pulse_cycles flags
            dev).2).regs.ENHTIM_CONFIGURE.Enhtimer_PWM_polarity
        = .ENHTIM_PWM_START_WITH_HIGH) := by
  have hch := (set_cycles_ret_eq_zero_iff _ _ _ _ _ _).mp hret
  have hfirst : (pwm_rtl87x2g_set_cycles config channel period_cycles pulse_cycles flags
        dev).2.regs.ENHTIM_CONFIGURE.Enhtimer_PWM_polarity
      = .ENHTIM_PWM_START_WITH_HIGH := by
    rw [set_cycles_enhanced_eq _ _ _ _ _ _ hch he]
    simp only [if_pos hinv]
    split_ifs <;> rfl
  refine ⟨hfirst, ?_, ?_⟩
  · intro channel1 period1 pulse1 flags1 dev1 d32 hmem
    unfold set_cycles_ops at hmem
    by_cases hc1 : channel1 ≤ config.channels
    · rw [set_cycles_enhanced_eq _ _ _ _ _ _ hc1 he] at hmem
      split_ifs at hmem <;>
        simp [ENHTIM_CONFIGURE_store, ENHTIM_SetMaxCount, ENHTIM_SetCCValue, ENHTIM_Cmd]
          at hmem <;>
        rw [hmem]
    · rw [set_cycles_rejects_above _ _ _ _ _ _ (Nat.not_le.mp hc1)] at hmem
      simp at hmem
  · intro reqs
    exact set_cycles_seq_keeps_polarity_high config reqs _ hfirst

/-- An inverted request on the enhanced sample instance, followed by a normal
general-case, a normal zero-duty and a normal full-duty request. -/
theorem set_cycles_polarity_sticky_witness :
    (pwm_rtl87x2g_set_cycles config_enh 0 1000 250 1 dev_enh).1 = 0 ∧
    dev_enh.regs.ENHTIM_CONFIGURE.Enhtimer_PWM_polarity = .ENHTIM_PWM_START_WITH_LOW ∧
    (set_cycles_seq config_enh
        [⟨0, 1000, 250, 0⟩, ⟨0, 0, 0, 0⟩, ⟨0, 500, 500, 0⟩]
        (pwm_rtl87x2g_set_cycles config_enh 0 1000 250 1
          dev_enh).2).regs.ENHTIM_CONFIGURE.Enhtimer_PWM_polarity
      = .ENHTIM_PWM_START_WITH_HIGH :=
  ⟨by decide, by decide,
   (set_cycles_polarity_sticky config_enh 0 1000 250 1 dev_enh rfl (by decide)
      (by decide)).2.2 _⟩

/-- C18: a request with `0 < period_cycles < pulse_cycles` (32-bit counts) on a
valid channel returns 0 and is programmed by the general-case formula: on the
standard timer the active register holds `pulse_cycles` and the other one the
wrapped difference 2^32 + `period_cycles` - `pulse_cycles`, so that high-count
plus low-count is `period_cycles` + 2^32; on the enhanced timer max-count =
`period_cycles` is below compare-count = `pulse_cycles`. -/
theorem set_cycles_pulse_longer_than_period (config : pwm_rtl87x2g_config)
    (channel period_cycles pulse_cycles flags : Nat) (dev : device)
    (hch : channel < config.channels) (hpos : 0 < period_cycles)
    (hlt : period_cycles < pulse_cycles) (h32 : pulse_cycles < 2 ^ 32) :
    (pwm_rtl87x2g_set_cycles config channel period_cycles pulse_cycles flags dev).1 = 0 ∧
    sub32 period_cycles pulse_cycles = 2 ^ 32 + period_cycles - pulse_cycles ∧
    (config.is_enhanced = false →
      (flags &&& PWM_POLARITY_INVERTED = 0 →
        (pwm_rtl87x2g_set_cycles config channel period_cycles pulse_cycles flags
          dev).2.regs.high_count = pulse_cycles ∧
        (pwm_rtl87x2g_set_cycles config channel period_cycles pulse_cycles flags
          dev).2.regs.low_count = 2 ^ 32 + period_cycles - pulse_cycles) ∧
      (flags &&& PWM_POLARITY_INVERTED ≠ 0 →
        (pwm_rtl87x2g_set_cycles config channel period_cycles pulse_cycles flags
          dev).2.regs.low_count = pulse_cycles ∧
        (pwm_rtl87x2g_set_cycles config channel period_cycles pulse_cycles flags
          dev).2.regs.high_count = 2 ^ 32 + period_cycles - pulse_cycles) ∧
      (pwm_rtl87x2g_set_cycles config channel period_cycles pulse_cycles flags
          dev).2.regs.high_count +
        (pwm_rtl87x2g_set_cycles config channel period_cycles pulse_cycles flags
          dev).2.regs.low_count = period_cycles + 2 ^ 32) ∧
    (config.is_enhanced = true →
      (pwm_rtl87x2g_set_cycles config channel period_cycles pulse_cycles flags
        dev).2.regs.max_count = period_cycles ∧
      (pwm_rtl87x2g_set_cycles config channel period_cycles pulse_cycles flags
        dev).2.regs.cc_value = pulse_cycles ∧
      (pwm_rtl87x2g_set_cycles config channel period_cycles pulse_cycles flags
          dev).2.regs.max_count <
        (pwm_rtl87x2g_set_cycles config channel period_cycles pulse_cycles flags
          dev).2.regs.cc_value) := by
  have hle := Nat.le_of_lt hch
  have hz : ¬ (period_cycles = 0 ∨ pulse_cycles = 0) := by omega
  have hne : ¬ period_cycles = pulse_cycles := by omega
  have hsub : sub32 period_cycles pulse_cycles = 2 ^ 32 + period_cycles - pulse_cycles := by
    unfold sub32
    omega
  refine ⟨set_cycles_accepts_upto _ _ _ _ _ _ hle, hsub, ?_, ?_⟩
  · intro he
    have hc := set_cycles_standard_counts config channel period_cycles pulse_cycles flags dev
      hle he
    rw [if_neg hz, if_neg hz, if_neg hne, if_neg hne, hsub] at hc
    by_cases hf : flags &&& PWM_POLARITY_INVERTED ≠ 0
    · rw [if_pos hf] at hc
      obtain ⟨h1, h2⟩ := Prod.mk.inj hc
      exact ⟨fun h0 => absurd h0 hf, fun _ => ⟨h2, h1⟩, by omega⟩
    · rw [if_neg hf] at hc
      obtain ⟨h1, h2⟩ := Prod.mk.inj hc
      exact ⟨fun _ => ⟨h1, h2⟩, fun h0 => absurd h0 hf, by omega⟩
  · intro he
    rw [set_cycles_enhanced_eq _ _ _ _ _ _ hle he, if_neg hz, if_neg hne]
    exact ⟨rfl, rfl, hlt⟩

/-- Period 250 and pulse 1000 with normal polarity on the standard sample
instance. -/
theorem set_cycles_pulse_longer_than_period_witness :
    (pwm_rtl87x2g_set_cycles config_std 0 250 1000 0 dev_std).1 = 0 ∧
    (pwm_rtl87x2g_set_cycles config_std 0 250 1000 0 dev_std).2.regs.high_count = 1000 ∧
    (pwm_rtl87x2g_set_cycles config_std 0 250 1000 0 dev_std).2.regs.low_count
      = 2 ^ 32 + 250 - 1000 ∧
    (pwm_rtl87x2g_set_cycles config_std 0 250 1000 0 dev_std).2.regs.high_count +
      (pwm_rtl87x2g_set_cycles config_std 0 250 1000 0 dev_std).2.regs.low_count
      = 250 + 2 ^ 32 :=
  ⟨(set_cycles_pulse_longer_than_period config_std 0 250 1000 0 dev_std (by decide)
      (by decide) (by decide) (by decide)).1,
   ((set_cycles_pulse_longer_than_period config_std 0 250 1000 0 dev_std (by decide)
      (by decide) (by decide) (by decide)).2.2.1 rfl).1 (by decide) |>.1,
   ((set_cycles_pulse_longer_than_period config_std 0 250 1000 0 dev_std (by decide)
      (by decide) (by decide) (by decide)).2.2.1 rfl).1 (by decide) |>.2,
   ((set_cycles_pulse_longer_than_period config_std 0 250 1000 0 dev_std (by decide)
      (by decide) (by decide) (by decide)).2.2.1 rfl).2.2⟩

/-- The divider code in the clock-division register field after a successful
initialization. -/
theorem init_regs_clock_div (config : pwm_rtl87x2g_config) (pinctrl_ret : Int)
    (dev : device) (hret : 0 ≤ pinctrl_ret) :
    (pwm_rtl87x2g_init config pinctrl_ret dev).2.regs.clock_div
      = pwm_rtl87x2g_init_clock_div config.prescaler := by
  cases he : config.is_enhanced
  · rw [init_standard_eq config pinctrl_ret dev hret he]
    rfl
  · rw [init_enhanced_eq config pinctrl_ret dev hret he]
    rfl

/-- On the recognized prescalers the selected divider code stands for the
prescaler itself. -/
theorem init_clock_div_divisor (p : Nat) (hp : p ∈ [1, 2, 4, 8, 16, 32, 40, 64]) :
    (pwm_rtl87x2g_init_clock_div p).divisor = p := by
  simp only [List.mem_cons, List.mem_singleton, List.not_mem_nil, or_false] at hp
  rcases hp with h | h | h | h | h | h | h | h <;> rw [h] <;> rfl

/-- C19: after a successful initialization, for a prescaler in
{1, 2, 4, 8, 16, 32, 40, 64} the query reports 40000000 divided by the ratio
of the divider code that initialization programmed; for any other prescaler
above 1 initialization programs `CLOCK_DIV_1`, the divide-by-1 code, while the
query reports 40000000 / prescaler, which is not the programmed rate
40000000. -/
theorem cycles_per_sec_vs_programmed_divider (config : pwm_rtl87x2g_config)
    (channel : Nat) (pinctrl_ret : Int) (dev0 : device) (hret : 0 ≤ pinctrl_ret) :
    (config.prescaler ∈ [1, 2, 4, 8, 16, 32, 40, 64] →
      pwm_rtl87x2g_get_cycles_per_sec config channel
          (pwm_rtl87x2g_init config pinctrl_ret dev0).2
        = some (0,
            40000000 / (pwm_rtl87x2g_init config pinctrl_ret dev0).2.regs.clock_div.divisor,
            (pwm_rtl87x2g_init config pinctrl_ret dev0).2)) ∧
    (config.prescaler ∉ [1, 2, 4, 8, 16, 32, 40, 64] → 1 < config.prescaler →
      (pwm_rtl87x2g_init config pinctrl_ret dev0).2.regs.clock_div = .CLOCK_DIV_1 ∧
      (pwm_rtl87x2g_init config pinctrl_ret dev0).2.regs.clock_div.divisor = 1 ∧
      pwm_rtl87x2g_get_cycles_per_sec config channel
          (pwm_rtl87x2g_init config pinctrl_ret dev0).2
        = some (0, 40000000 / config.prescaler,
            (pwm_rtl87x2g_init config pinctrl_ret dev0).2) ∧
      40000000 / config.prescaler
        ≠ 40000000 / (pwm_rtl87x2g_init config pinctrl_ret dev0).2.regs.clock_div.divisor ∧
      40000000 / (pwm_rtl87x2g_init config pinctrl_ret dev0).2.regs.clock_div.divisor
        = 40000000) := by
  have hclk := init_regs_clock_div config pinctrl_ret dev0 hret
  refine ⟨?_, ?_⟩
  · intro hp
    have hne : config.prescaler ≠ 0 := by
      intro h0
      rw [h0] at hp
      simp at hp
    rw [get_cycles_per_sec_of_ne_zero config channel _ hne, init_tim_clk, hclk,
      init_clock_div_divisor _ hp]
  · intro hp h1
    have hne : config.prescaler ≠ 0 := by omega
    have hdiv : 40000000 / config.prescaler < 40000000 :=
      Nat.div_lt_self (by decide) h1
    rw [get_cycles_per_sec_of_ne_zero config channel _ hne, init_tim_clk, hclk,
      init_clock_div_default _ hp]
    refine ⟨rfl, rfl, rfl, ?_, rfl⟩
    change 40000000 / config.prescaler ≠ 40000000 / 1
    omega

/-- The unrecognized prescaler 3: `CLOCK_DIV_1` is programmed and the query
reports 13333333. -/
theorem cycles_per_sec_vs_programmed_divider_witness :
    (0 : Int) ≤ 0 ∧ config_std3.prescaler ∉ [1, 2, 4, 8, 16, 32, 40, 64] ∧
    1 < config_std3.prescaler ∧
    (pwm_rtl87x2g_init config_std3 0 dev_reset).2.regs.clock_div = .CLOCK_DIV_1 ∧
    (pwm_rtl87x2g_init config_std3 0 dev_reset).2.regs.clock_div.divisor = 1 ∧
    pwm_rtl87x2g_get_cycles_per_sec config_std3 0 (pwm_rtl87x2g_init config_std3 0 dev_reset).2
      = some (0, 40000000 / config_std3.prescaler,
          (pwm_rtl87x2g_init config_std3 0 dev_reset).2) ∧
    40000000 / config_std3.prescaler
      ≠ 40000000 / (pwm_rtl87x2g_init config_std3 0 dev_reset).2.regs.clock_div.divisor ∧
    40000000 / (pwm_rtl87x2g_init config_std3 0 dev_reset).2.regs.clock_div.divisor
      = 40000000 :=
  ⟨by decide, by decide, by decide,
   (cycles_per_sec_vs_programmed_divider config_std3 0 0 dev_reset (by decide)).2
     (by decide) (by decide)⟩

end PwmRtl87x2g
